import Mathlib

/-!
# QAT device plugin: discovery and rebinding

A shallow embedding of `cmd/qat_plugin/qat_plugin.go` and the properties of its
scan cycle.

Conventions of the embedding:

* Go strings are Lean `String`s; the string helpers work on the character list
  (`String.data`).  File contents are text.
* The filesystem is a parameter: a state type `σ` with the four operations the
  program uses (`ioutil.ReadDir`, `ioutil.ReadFile`, `filepath.EvalSymlinks`,
  `ioutil.WriteFile`).  Reads observe the state, writes may change it.
* Every function returns, next to its Go result, the trace of the calls it made
  to the filesystem, to `DeviceTree.AddDevice` and to `Notifier.Notify`.
* A Go `error` is its message; `(nil, err)` is `Except.error`.
* Output on stdout and glog (`fmt.Printf`, `glog.Error`) is not part of the model.
-/

set_option autoImplicit false

namespace QatPlugin

/-! ## Go standard library: strings, bytes, path -/

/-- Go `strings.HasPrefix`. -/
def strings_HasPrefix (s p : String) : Bool :=
  p.data.isPrefixOf s.data

/-- Go `strings.TrimPrefix`: `s` without the leading `p` when it has it, else `s`. -/
def strings_TrimPrefix (s p : String) : String :=
  if strings_HasPrefix s p then String.mk (s.data.drop p.data.length) else s

/-- Go `unicode.IsSpace`: the Latin-1 spaces and the code points of category Z
with property Pattern_White_Space. -/
def unicode_IsSpace (c : Char) : Bool :=
  let n := c.toNat
  n == 0x09 || n == 0x0A || n == 0x0B || n == 0x0C || n == 0x0D || n == 0x20 ||
  n == 0x85 || n == 0xA0 || n == 0x1680 || (0x2000 ≤ n && n ≤ 0x200A) ||
  n == 0x2028 || n == 0x2029 || n == 0x202F || n == 0x205F || n == 0x3000

/-- Go `bytes.TrimSpace`: leading and trailing white space removed. -/
def bytes_TrimSpace (s : String) : String :=
  String.mk ((s.data.dropWhile unicode_IsSpace).reverse.dropWhile unicode_IsSpace).reverse

/-- Pieces of a character list between occurrences of `sep`. -/
def splitChars (sep : Char) : List Char → List (List Char)
  | [] => [[]]
  | c :: cs =>
    if c = sep then [] :: splitChars sep cs
    else
      match splitChars sep cs with
      | [] => [[c]]
      | h :: t => (c :: h) :: t

/-- Go `strings.Split(s, sep)` for a separator of one character (the program
only splits on ","). -/
def strings_Split (s : String) (sep : Char) : List String :=
  (splitChars sep s.data).map String.mk

/-- Go `strings.Join(elems, "/")`. -/
def joinSlash (elems : List String) : String :=
  String.mk (List.intercalate ['/'] (elems.map String.data))

/-- One path element of Go `path.Clean`, `out` being the elements kept so far,
last one first: empty and "." elements are dropped, ".." removes the last
element kept, is dropped at the root, and is kept at the start of a relative
path. -/
def cleanStep (rooted : Bool) (out : List (List Char)) (e : List Char) : List (List Char) :=
  if e = [] ∨ e = ['.'] then out
  else if e = ['.', '.'] then
    match out with
    | [] => if rooted then [] else [e]
    | top :: rest => if top = ['.', '.'] then e :: out else rest
  else e :: out

/-- Go `path.Clean`: the shortest path name equivalent to `p` by purely
lexical processing. -/
def path_Clean (p : String) : String :=
  if p = "" then "."
  else
    let rooted := p.data.head? == some '/'
    let out := ((splitChars '/' p.data).foldl (cleanStep rooted) []).reverse
    let body := List.intercalate ['/'] out
    if rooted then String.mk ('/' :: body)
    else if body = [] then "." else String.mk body

/-- Go `path.Join`: the elements from the first non-empty one on, joined with
slashes and cleaned; the empty string when all are empty. -/
def path_Join : List String → String
  | [] => ""
  | e :: rest => if e = "" then path_Join rest else path_Clean (joinSlash (e :: rest))

/-- Go `fmt.Sprintf("%d", n)` for a non-negative `n`. -/
def fmt_d (n : Nat) : String := Nat.repr n

/-! ## Constants of the program -/

def uioDevicePath : String := "/dev"
def vfioDevicePath : String := "/dev/vfio"
def uioMountPath : String := "/sys/class/uio"
def pciDeviceDirectory : String := "/sys/bus/pci/devices"
def pciDriverDirectory : String := "/sys/bus/pci/drivers"
def uioSuffix : String := "uio"
def iommuGroupSuffix : String := "iommu_group"
def sysfsIommuGroupPrefix : String := "/sys/kernel/iommu_groups"
def newIDSuffix : String := "new_id"
def driverUnbindSuffix : String := "driver/unbind"
def vendorPrefix : String := "8086 "
def namespace_ : String := "qat"

/-! ## Data model -/

/-- Modelled from the spec: the health flag value `pluginapi.Healthy` of the
kubelet device plugin API, which is not part of the sources at hand. -/
def pluginapi_Healthy : String := "Healthy"

/-- Modelled from the spec: the device descriptor `deviceplugin.DeviceInfo`
(health flag, device-node paths, mount paths, environment mapping); the type is
declared in `internal/deviceplugin`, only its use in `scan` is at hand. -/
structure DeviceInfo where
  State : String
  Nodes : List String
  Mounts : List String
  Envs : List (String × String)
  deriving DecidableEq

/-- Modelled from the spec: the inventory `deviceplugin.DeviceTree`, a mapping
from a device-class label to a mapping from bus address to descriptor, kept as
association lists with unique keys. -/
abbrev DeviceTree := List (String × List (String × DeviceInfo))

/-- Value stored under key `k`. -/
def mapLookup {β : Type} (k : String) : List (String × β) → Option β
  | [] => none
  | (k1, v) :: rest => if k1 = k then some v else mapLookup k rest

/-- Go map assignment `m[k] = v`. -/
def mapInsert {β : Type} (k : String) (v : β) : List (String × β) → List (String × β)
  | [] => [(k, v)]
  | (k1, v1) :: rest => if k1 = k then (k, v) :: rest else (k1, v1) :: mapInsert k v rest

/-- Modelled from the spec: `deviceplugin.NewDeviceTree`, the empty inventory. -/
def NewDeviceTree : DeviceTree := []

/-- Modelled from the spec: `DeviceTree.AddDevice`, which is defined in
`internal/deviceplugin`: the descriptor is stored under the class label and the
bus address, replacing a descriptor already stored under that address. -/
def AddDevice (tree : DeviceTree) (devType id : String) (info : DeviceInfo) : DeviceTree :=
  mapInsert devType (mapInsert id info ((mapLookup devType tree).getD [])) tree

/-- Number of devices of the inventory, all classes together. -/
def DeviceTree.size (tree : DeviceTree) : Nat :=
  (tree.map (fun c => c.2.length)).sum

structure devicePlugin where
  maxDevices : Int
  pciDriverDir : String
  pciDeviceDir : String
  kernelVfDrivers : List String
  dpdkDriver : String
  deriving DecidableEq

def newDevicePlugin (pciDriverDir pciDeviceDir : String) (maxDevices : Int)
    (kernelVfDrivers : List String) (dpdkDriver : String) : devicePlugin :=
  { maxDevices := maxDevices
    pciDriverDir := pciDriverDir
    pciDeviceDir := pciDeviceDir
    kernelVfDrivers := kernelVfDrivers
    dpdkDriver := dpdkDriver }

/-! ## The environment: filesystem and call trace -/

/-- The filesystem operations the program uses, over a state `σ`.
`ReadDir` gives the entry names in listing order. `WriteFile` returns its
error, if any, and the state after the call. -/
structure FileSystem (σ : Type) where
  ReadDir : σ → String → Except String (List String)
  ReadFile : σ → String → Except String String
  EvalSymlinks : σ → String → Except String String
  WriteFile : σ → String → String → Except String Unit × σ

/-- A call to the environment, with its arguments. -/
inductive Event where
  | readDir (path : String)
  | readFile (path : String)
  | evalSymlinks (path : String)
  | writeFile (path : String) (data : String)
  | addDevice (devType : String) (id : String) (info : DeviceInfo)
  | notify (tree : DeviceTree)
  deriving DecidableEq

/-- Equality of Go results is decidable. -/
instance instDecidableEqExcept {ε α : Type} [DecidableEq ε] [DecidableEq α] :
    DecidableEq (Except ε α)
  | .ok a, .ok b => if h : a = b then isTrue (by rw [h]) else isFalse (fun e => h (by cases e; rfl))
  | .error a, .error b =>
    if h : a = b then isTrue (by rw [h]) else isFalse (fun e => h (by cases e; rfl))
  | .ok _, .error _ => isFalse (fun e => by cases e)
  | .error _, .ok _ => isFalse (fun e => by cases e)

/-- Result of a function that may write: Go result, filesystem state after
the call, calls made. -/
structure Outcome (σ α : Type) where
  result : Except String α
  state : σ
  trace : List Event
  deriving DecidableEq

/-- The `WriteFile` calls of a trace, as (path, data), in order. -/
def writeCalls : List Event → List (String × String)
  | [] => []
  | Event.writeFile p d :: rest => (p, d) :: writeCalls rest
  | _ :: rest => writeCalls rest

/-- The `AddDevice` calls of a trace, as (class, address, descriptor), in order. -/
def addDeviceCalls : List Event → List (String × String × DeviceInfo)
  | [] => []
  | Event.addDevice c k i :: rest => (c, k, i) :: addDeviceCalls rest
  | _ :: rest => addDeviceCalls rest

/-- The inventories passed to `Notify` in a trace, in order. -/
def notifyCalls : List Event → List DeviceTree
  | [] => []
  | Event.notify t :: rest => t :: notifyCalls rest
  | _ :: rest => notifyCalls rest

/-! ## The program -/

section Program

variable {σ : Type}

/-- Source lines 84-112. -/
def getDpdkDevice (dp : devicePlugin) (fs : FileSystem σ) (s : σ) (id : String) :
    Except String String × List Event :=
  let devicePCIAdd := "0000:" ++ id
  if dp.dpdkDriver = "igb_uio" then
    let uioDirPath := path_Join [dp.pciDeviceDir, devicePCIAdd, uioSuffix]
    match fs.ReadDir s uioDirPath with
    | .error err => (.error err, [Event.readDir uioDirPath])
    | .ok [] => (.error "No devices found", [Event.readDir uioDirPath])
    | .ok (f :: _) => (.ok f, [Event.readDir uioDirPath])
  else if dp.dpdkDriver = "vfio-pci" then
    let vfioDirPath := path_Join [dp.pciDeviceDir, devicePCIAdd, iommuGroupSuffix]
    match fs.EvalSymlinks s vfioDirPath with
    | .error err => (.error err, [Event.evalSymlinks vfioDirPath])
    | .ok group =>
      (.ok (strings_TrimPrefix group sysfsIommuGroupPrefix), [Event.evalSymlinks vfioDirPath])
  else (.error "Unknown DPDK driver", [])

/-- Source lines 114-135. -/
def getDpdkDeviceNames (dp : devicePlugin) (fs : FileSystem σ) (s : σ) (id : String) :
    Except String (List String) × List Event :=
  match getDpdkDevice dp fs s id with
  | (.error err, tr) =>
    (.error ("Unable to get the dpdk device for creating device nodes: " ++ err), tr)
  | (.ok dpdkDeviceName, tr) =>
    if dp.dpdkDriver = "igb_uio" then
      let uioDev := path_Join [uioDevicePath, dpdkDeviceName]
      (.ok [uioDev], tr)
    else if dp.dpdkDriver = "vfio-pci" then
      let vfioDev1 := path_Join [vfioDevicePath, dpdkDeviceName]
      let vfioDev2 := path_Join [vfioDevicePath, "/vfio"]
      (.ok [vfioDev1, vfioDev2], tr)
    else (.error "Unknown DPDK driver", tr)

/-- Source lines 137-154. -/
def getDpdkMountPaths (dp : devicePlugin) (fs : FileSystem σ) (s : σ) (id : String) :
    Except String (List String) × List Event :=
  match getDpdkDevice dp fs s id with
  | (.error err, tr) =>
    (.error ("Unable to get the dpdk device for mountPath: " ++ err), tr)
  | (.ok dpdkDeviceName, tr) =>
    if dp.dpdkDriver = "igb_uio" then
      let uioMountPoint := path_Join [uioMountPath, dpdkDeviceName, "/device"]
      (.ok [uioMountPoint], tr)
    else if dp.dpdkDriver = "vfio-pci" then
      (.ok [], tr)
    else (.error "Unknown DPDK driver", tr)

/-- Source lines 156-163. -/
def getDeviceID (dp : devicePlugin) (fs : FileSystem σ) (s : σ) (pciAddr : String) :
    Except String String × List Event :=
  let p := path_Join [dp.pciDeviceDir, pciAddr, "device"]
  match fs.ReadFile s p with
  | .error err =>
    (.error ("Cannot obtain ID for the device " ++ pciAddr ++ ": " ++ err), [Event.readFile p])
  | .ok devID => (.ok (strings_TrimPrefix (bytes_TrimSpace devID) "0x"), [Event.readFile p])

/-- Source lines 165-189: unbind the device from its kernel driver and bind it
to the DPDK driver. -/
def bindDevice (dp : devicePlugin) (fs : FileSystem σ) (s : σ) (id : String) : Outcome σ Unit :=
  let devicePCIAddr := "0000:" ++ id
  let unbindDevicePath := path_Join [dp.pciDeviceDir, devicePCIAddr, driverUnbindSuffix]
  let w1 := fs.WriteFile s unbindDevicePath devicePCIAddr
  match w1.1 with
  | .error err =>
    { result := .error ("Unbinding from kernel driver failed for the device " ++ id ++ ": " ++ err)
      state := w1.2
      trace := [Event.writeFile unbindDevicePath devicePCIAddr] }
  | .ok _ =>
    let r := getDeviceID dp fs w1.2 devicePCIAddr
    match r.1 with
    | .error err =>
      { result := .error ("Cannot obtain ID for the device " ++ id ++ ": " ++ err)
        state := w1.2
        trace := Event.writeFile unbindDevicePath devicePCIAddr :: r.2 }
    | .ok vfdevID =>
      let bindDevicePath := path_Join [dp.pciDriverDir, dp.dpdkDriver, newIDSuffix]
      let w2 := fs.WriteFile w1.2 bindDevicePath (vendorPrefix ++ vfdevID)
      match w2.1 with
      | .error err =>
        { result := .error ("Binding to the DPDK driver failed for the device " ++ id ++ ": " ++ err)
          state := w2.2
          trace := Event.writeFile unbindDevicePath devicePCIAddr :: r.2 ++
            [Event.writeFile bindDevicePath (vendorPrefix ++ vfdevID)] }
      | .ok _ =>
        { result := .ok ()
          state := w2.2
          trace := Event.writeFile unbindDevicePath devicePCIAddr :: r.2 ++
            [Event.writeFile bindDevicePath (vendorPrefix ++ vfdevID)] }

/-- Source lines 191-197. -/
def isValidKerneDriver (kernelvfDriver : String) : Bool :=
  kernelvfDriver = "dh895xccvf" || kernelvfDriver = "c6xxvf" ||
  kernelvfDriver = "c3xxxvf" || kernelvfDriver = "d15xxvf"

/-- Source lines 199-205. -/
def isValidDpdkDeviceDriver (dpdkDriver : String) : Bool :=
  dpdkDriver = "igb_uio" || dpdkDriver = "vfio-pci"

/-- Source lines 230-235: the rebinding step of an accepted entry, taken only
under a driver other than the DPDK driver. -/
def bindIfKernelDriver (dp : devicePlugin) (fs : FileSystem σ) (driver : String) (s : σ)
    (vfpciaddr : String) : Outcome σ Unit :=
  if driver ≠ dp.dpdkDriver then bindDevice dp fs s vfpciaddr
  else { result := .ok (), state := s, trace := [] }

/-- Source lines 217-256: the loop over the entries `files` of the directory of
`driver`, `n` being the number of entries counted so far. -/
def scanFiles (dp : devicePlugin) (fs : FileSystem σ) (driver : String) :
    List String → Nat → σ → DeviceTree → Outcome σ DeviceTree
  | [], _, s, devTree => { result := .ok devTree, state := s, trace := [] }
  | file :: files, n, s, devTree =>
    if !strings_HasPrefix file "0000:" then scanFiles dp fs driver files n s devTree
    else
      let n1 := n + 1
      if (n1 : Int) > dp.maxDevices then { result := .ok devTree, state := s, trace := [] }
      else
        let vfpciaddr := strings_TrimPrefix file "0000:"
        let b := bindIfKernelDriver dp fs driver s vfpciaddr
        match b.result with
        | .error err =>
          { result := .error ("Error in binding the device to the dpdk driver: " ++ err)
            state := b.state
            trace := b.trace }
        | .ok _ =>
          let nodes := getDpdkDeviceNames dp fs b.state vfpciaddr
          match nodes.1 with
          | .error err =>
            { result := .error ("Error in obtaining the device name: " ++ err)
              state := b.state
              trace := b.trace ++ nodes.2 }
          | .ok devNodes =>
            let mounts := getDpdkMountPaths dp fs b.state vfpciaddr
            match mounts.1 with
            | .error err =>
              { result := .error ("Error in obtaining the mount point: " ++ err)
                state := b.state
                trace := b.trace ++ nodes.2 ++ mounts.2 }
            | .ok devMounts =>
              let devinfo : DeviceInfo :=
                { State := pluginapi_Healthy
                  Nodes := devNodes
                  Mounts := devMounts
                  Envs := [(namespace_ ++ fmt_d n1, file)] }
              let rest := scanFiles dp fs driver files n1 b.state
                (AddDevice devTree "generic" vfpciaddr devinfo)
              { result := rest.result
                state := rest.state
                trace := b.trace ++ nodes.2 ++ mounts.2 ++
                  [Event.addDevice "generic" vfpciaddr devinfo] ++ rest.trace }

/-- Source lines 211-256: one round of the loop over the drivers. -/
def scanDriver (dp : devicePlugin) (fs : FileSystem σ) (driver : String) (s : σ)
    (devTree : DeviceTree) : Outcome σ DeviceTree :=
  let dir := path_Join [dp.pciDriverDir, driver]
  match fs.ReadDir s dir with
  | .error err =>
    { result := .error ("Can\x27t read sysfs for driver " ++ driver ++ ": " ++ err)
      state := s
      trace := [Event.readDir dir] }
  | .ok files =>
    let r := scanFiles dp fs driver files 0 s devTree
    { result := r.result, state := r.state, trace := Event.readDir dir :: r.trace }

/-- Source lines 210-259: the loop over the drivers, `devTree` being the
inventory built so far. -/
def scanDrivers (dp : devicePlugin) (fs : FileSystem σ) :
    List String → σ → DeviceTree → Outcome σ DeviceTree
  | [], s, devTree => { result := .ok devTree, state := s, trace := [] }
  | driver :: drivers, s, devTree =>
    let r := scanDriver dp fs driver s devTree
    match r.result with
    | .error err => { result := .error err, state := r.state, trace := r.trace }
    | .ok devTree1 =>
      let rest := scanDrivers dp fs drivers r.state devTree1
      { result := rest.result, state := rest.state, trace := r.trace ++ rest.trace }

/-- Source lines 207-260. -/
def scan (dp : devicePlugin) (fs : FileSystem σ) (s : σ) : Outcome σ DeviceTree :=
  scanDrivers dp fs (dp.kernelVfDrivers ++ [dp.dpdkDriver]) s NewDeviceTree

/-- Source lines 70-82: the polling loop, run for at most `cycles` cycles.
The result is `some err` when the loop has returned the error `err`, and `none`
when it is still running after that many cycles (the loop returns in no other
way). The pause between two cycles is not modelled. -/
def Scan (dp : devicePlugin) (fs : FileSystem σ) : Nat → σ → Option String × σ × List Event
  | 0, s => (none, s, [])
  | cycles + 1, s =>
    let r := scan dp fs s
    match r.result with
    | .error err => (some ("Device scan failed: " ++ err), r.state, r.trace)
    | .ok devTree =>
      let rest := Scan dp fs cycles r.state
      (rest.1, rest.2.1, r.trace ++ Event.notify devTree :: rest.2.2)

end Program

/-- Source lines 262-284, after flag parsing: the exit status 1 when the
configuration is refused, else the plugin that is handed to the manager, which
runs its `Scan`. -/
def main (dpdkDriver kernelVfDrivers : String) (maxNumDevices : Int) : Except Nat devicePlugin :=
  if !isValidDpdkDeviceDriver dpdkDriver then .error 1
  else
    let kernelDrivers := strings_Split kernelVfDrivers ','
    if kernelDrivers.all isValidKerneDriver then
      .ok (newDevicePlugin pciDriverDirectory pciDeviceDirectory maxNumDevices kernelDrivers
        dpdkDriver)
    else .error 1

/-! ## An in-memory filesystem, for concrete runs -/

/-- Directories with their entries, files with their contents, symbolic links
with their resolved targets, and the control files that accept a write. -/
structure MemFS where
  dirs : List (String × List String)
  files : List (String × String)
  links : List (String × String)
  writable : List String
  deriving DecidableEq

/-- Operations of the in-memory filesystem: a read fails on a missing path, a
write to a control file that accepts it is recorded as the file content. -/
def memFS : FileSystem MemFS where
  ReadDir s p :=
    match mapLookup p s.dirs with
    | some l => .ok l
    | none => .error ("open " ++ p ++ ": no such file or directory")
  ReadFile s p :=
    match mapLookup p s.files with
    | some c => .ok c
    | none => .error ("open " ++ p ++ ": no such file or directory")
  EvalSymlinks s p :=
    match mapLookup p s.links with
    | some t => .ok t
    | none => .error ("lstat " ++ p ++ ": no such file or directory")
  WriteFile s p data :=
    if p ∈ s.writable then (.ok (), { s with files := mapInsert p data s.files })
    else (.error ("open " ++ p ++ ": permission denied"), s)

/-! ## Notions used in the statements, and concrete systems -/

/-- No white space at the start. -/
def noLeadingSpace (s : String) : Prop :=
  ∀ c, s.data.head? = some c → unicode_IsSpace c = false

/-- No white space at the end. -/
def noTrailingSpace (s : String) : Prop :=
  ∀ c, s.data.getLast? = some c → unicode_IsSpace c = false

/-- A name a directory entry can have: not empty, no slash, neither "." nor "..". -/
def validEntryName (name : String) : Prop :=
  name ≠ "" ∧ '/' ∉ name.data ∧ name ≠ "." ∧ name ≠ ".."

def pluginFor (dpdkDriver : String) (kernelVfDrivers : List String) (maxDevices : Int) :
    devicePlugin :=
  newDevicePlugin pciDriverDirectory pciDeviceDirectory maxDevices kernelVfDrivers dpdkDriver

def sysfsOddIds : MemFS :=
  { dirs := []
    files := [("/sys/bus/pci/devices/0000:01:00.0/device", "0x0x8086\n"),
      ("/sys/bus/pci/devices/0000:01:00.1/device", "0x 8086\n"),
      ("/sys/bus/pci/devices/0000:01:00.2/device", "0x8086\n")]
    links := []
    writable := [] }

def sysfsOneVf : MemFS :=
  { dirs := [("/sys/bus/pci/drivers/c6xxvf", ["0000:01:00.0", "bind"]),
      ("/sys/bus/pci/drivers/igb_uio", []),
      ("/sys/bus/pci/devices/0000:01:00.0/uio", ["uio0"])]
    files := [("/sys/bus/pci/devices/0000:01:00.0/device", "0x37c9\n")]
    links := [("/sys/bus/pci/devices/0000:01:00.0/iommu_group", "/sys/kernel/iommu_groups/7")]
    writable := ["/sys/bus/pci/devices/0000:01:00.0/driver/unbind",
      "/sys/bus/pci/drivers/igb_uio/new_id"] }

/-- Directory of a driver, as `scan` reads it. -/
def driverDir (dp : devicePlugin) (driver : String) : String :=
  path_Join [dp.pciDriverDir, driver]

/-- Unbind control file of the device behind the directory entry `file`. -/
def unbindPath (dp : devicePlugin) (file : String) : String :=
  path_Join [dp.pciDeviceDir, file, "driver/unbind"]

/-- The new_id control file of the DPDK driver. -/
def newIdPath (dp : devicePlugin) : String :=
  path_Join [dp.pciDriverDir, dp.dpdkDriver, "new_id"]

/-- The entries of a listing whose name starts with "0000:", in listing order. -/
def busEntries (files : List String) : List String :=
  files.filter (fun f => strings_HasPrefix f "0000:")

/-- The first min(maxDevices, k) of the k entries of a listing whose name starts
with "0000:". -/
def acceptedEntries (dp : devicePlugin) (files : List String) : List String :=
  (busEntries files).take (min dp.maxDevices.toNat (busEntries files).length)

/-- The two writes of a successful rebinding of the entry `file`, `devID` being
the identifier resolved for it. -/
def rebindWrites (dp : devicePlugin) (file devID : String) : List (String × String) :=
  [(unbindPath dp file, file), (newIdPath dp, "8086 " ++ devID)]

/-- Descriptor stored under class `devType` and address `id`. -/
def DeviceTree.device (tree : DeviceTree) (devType id : String) : Option DeviceInfo :=
  (mapLookup devType tree).bind (mapLookup id)

/-- A trace of reads only. -/
def readsOnly (tr : List Event) : Prop :=
  writeCalls tr = [] ∧ addDeviceCalls tr = [] ∧ notifyCalls tr = []

/-- The descriptor `scan` builds for the entry `file` counted as number `n1`. -/
def entryInfo (file : String) (n1 : Nat) (devNodes devMounts : List String) : DeviceInfo :=
  { State := pluginapi_Healthy
    Nodes := devNodes
    Mounts := devMounts
    Envs := [(namespace_ ++ fmt_d n1, file)] }

/-- Class, address, health flag and environment of an `AddDevice` call. -/
def callSummary (c : String × String × DeviceInfo) :
    String × String × String × List (String × String) :=
  (c.1, c.2.1, c.2.2.State, c.2.2.Envs)

/-- The call expected for the entry `ie.2` accepted as number `ie.1`: class
"generic", the address without "0000:", healthy, and the single environment
key "qat" followed by the number, mapped to the entry name. -/
def expectedCall (ie : Nat × String) : String × String × String × List (String × String) :=
  ("generic", strings_TrimPrefix ie.2 "0000:", "Healthy", [("qat" ++ fmt_d ie.1, ie.2)])

/-- The inventory after a sequence of `AddDevice` calls. -/
def applyCalls (tree : DeviceTree) (calls : List (String × String × DeviceInfo)) : DeviceTree :=
  calls.foldl (fun t c => AddDevice t c.1 c.2.1 c.2.2) tree

/-- The inventory holds a healthy descriptor under class "generic" and address `id`. -/
def healthyAt (tree : DeviceTree) (id : String) : Prop :=
  ∃ info, tree.device "generic" id = some info ∧ info.State = "Healthy"

/-- The scenario of the specification: the source driver c6xxvf lists four
devices and one other entry, the DPDK driver igb_uio lists none; the first two
devices can be rebound and have their uio directory. -/
def sysfsScenario : MemFS :=
  { dirs := [("/sys/bus/pci/drivers/c6xxvf",
        ["0000:01:00.0", "0000:01:00.1", "0000:01:00.2", "0000:01:00.3", "somejunk"]),
      ("/sys/bus/pci/drivers/igb_uio", []),
      ("/sys/bus/pci/devices/0000:01:00.0/uio", ["uio0"]),
      ("/sys/bus/pci/devices/0000:01:00.1/uio", ["uio1"])]
    files := [("/sys/bus/pci/devices/0000:01:00.0/device", "0x37c9\n"),
      ("/sys/bus/pci/devices/0000:01:00.1/device", "0x37c9\n")]
    links := []
    writable := ["/sys/bus/pci/devices/0000:01:00.0/driver/unbind",
      "/sys/bus/pci/devices/0000:01:00.1/driver/unbind",
      "/sys/bus/pci/drivers/igb_uio/new_id"] }

/-- The plugin of the scenario: source driver c6xxvf, DPDK driver igb_uio, at
most two devices. -/
def pluginScenario : devicePlugin := pluginFor "igb_uio" ["c6xxvf"] 2

/-- One device under the source driver c6xxvf and another one already under
the DPDK driver igb_uio. -/
def sysfsMixed : MemFS :=
  { dirs := [("/sys/bus/pci/drivers/c6xxvf", ["0000:01:00.0"]),
      ("/sys/bus/pci/drivers/igb_uio", ["0000:02:00.0"]),
      ("/sys/bus/pci/devices/0000:01:00.0/uio", ["uio0"]),
      ("/sys/bus/pci/devices/0000:02:00.0/uio", ["uio1"])]
    files := [("/sys/bus/pci/devices/0000:01:00.0/device", "0x37c9\n")]
    links := []
    writable := ["/sys/bus/pci/devices/0000:01:00.0/driver/unbind",
      "/sys/bus/pci/drivers/igb_uio/new_id"] }

/-- All devices already under the DPDK driver: the source driver lists its
control files only. -/
def sysfsMigrated : MemFS :=
  { dirs := [("/sys/bus/pci/drivers/c6xxvf", ["bind", "new_id", "unbind"]),
      ("/sys/bus/pci/drivers/igb_uio", ["0000:01:00.0", "bind", "new_id", "unbind"]),
      ("/sys/bus/pci/devices/0000:01:00.0/uio", ["uio0"])]
    files := [("/sys/bus/pci/devices/0000:01:00.0/device", "0x37c9\n")]
    links := []
    writable := ["/sys/bus/pci/devices/0000:01:00.0/driver/unbind",
      "/sys/bus/pci/drivers/igb_uio/new_id"] }

/-- The inventory of the scenario: the first two devices of c6xxvf. -/
def inventoryScenario : DeviceTree :=
  [("generic",
    [("01:00.0",
        { State := "Healthy", Nodes := ["/dev/uio0"], Mounts := ["/sys/class/uio/uio0/device"],
          Envs := [("qat1", "0000:01:00.0")] }),
      ("01:00.1",
        { State := "Healthy", Nodes := ["/dev/uio1"], Mounts := ["/sys/class/uio/uio1/device"],
          Envs := [("qat2", "0000:01:00.1")] })])]

/-- The inventory scanned from `sysfsMixed`: the device of c6xxvf and the
device of igb_uio. -/
def inventoryMixed : DeviceTree :=
  [("generic",
    [("01:00.0",
        { State := "Healthy", Nodes := ["/dev/uio0"], Mounts := ["/sys/class/uio/uio0/device"],
          Envs := [("qat1", "0000:01:00.0")] }),
      ("02:00.0",
        { State := "Healthy", Nodes := ["/dev/uio1"], Mounts := ["/sys/class/uio/uio1/device"],
          Envs := [("qat1", "0000:02:00.0")] })])]

section Theorems

variable {σ : Type}

/-! ## Strings and paths -/

theorem hasPrefix_append_trimPrefix (s p : String) (h : strings_HasPrefix s p = true) :
    p ++ strings_TrimPrefix s p = s := by
  unfold strings_TrimPrefix
  rw [if_pos h]
  unfold strings_HasPrefix at h
  obtain ⟨t, ht⟩ := List.isPrefixOf_iff_prefix.mp h
  apply String.ext
  simp [String.data_append, ← ht]

theorem trimPrefix_append (p r : String) : strings_TrimPrefix (p ++ r) p = r := by
  have h : strings_HasPrefix (p ++ r) p = true := by
    unfold strings_HasPrefix
    exact List.isPrefixOf_iff_prefix.mpr ⟨r.data, by simp⟩
  unfold strings_TrimPrefix
  rw [if_pos h]
  apply String.ext
  simp

theorem head?_dropWhile_false (p : Char → Bool) (l : List Char) (c : Char)
    (h : (l.dropWhile p).head? = some c) : p c = false := by
  induction l with
  | nil => simp at h
  | cons a l ih =>
    by_cases ha : p a = true
    · rw [List.dropWhile_cons_of_pos ha] at h
      exact ih h
    · rw [List.dropWhile_cons_of_neg ha] at h
      simp at h
      subst h
      simpa using ha

theorem trimSpace_noTrailing (s : String) : noTrailingSpace (bytes_TrimSpace s) := by
  intro c hc
  unfold bytes_TrimSpace at hc
  simp only [List.getLast?_reverse] at hc
  exact head?_dropWhile_false _ _ _ hc

theorem trimSpace_noLeading (s : String) : noLeadingSpace (bytes_TrimSpace s) := by
  intro c hc
  unfold bytes_TrimSpace at hc
  have hp : ((s.data.dropWhile unicode_IsSpace).reverse.dropWhile unicode_IsSpace).reverse
      <+: s.data.dropWhile unicode_IsSpace := List.rdropWhile_prefix _ _
  obtain ⟨t, ht⟩ := hp
  apply head?_dropWhile_false unicode_IsSpace s.data c
  rw [← ht]
  generalize ((s.data.dropWhile unicode_IsSpace).reverse.dropWhile unicode_IsSpace).reverse = x at hc
  cases x with
  | nil => simp at hc
  | cons a x => simpa using hc

theorem trimPrefix_noTrailing (s p : String) (h : noTrailingSpace s) :
    noTrailingSpace (strings_TrimPrefix s p) := by
  unfold strings_TrimPrefix
  split
  · intro c hc
    apply h c
    simp only [List.getLast?_drop] at hc
    split at hc
    · simp at hc
    · exact hc
  · exact h


theorem splitChars_no_sep (sep : Char) (l : List Char) (h : sep ∉ l) :
    splitChars sep l = [l] := by
  induction l with
  | nil => rfl
  | cons a l ih =>
    have h1 : a ≠ sep := fun e => h (by simp [e])
    have h2 : sep ∉ l := fun e => h (by simp [e])
    simp [splitChars, h1, ih h2]

theorem splitChars_append_sep (sep : Char) (a b : List Char) (h : sep ∉ a) :
    splitChars sep (a ++ sep :: b) = a :: splitChars sep b := by
  induction a with
  | nil => simp [splitChars]
  | cons x a ih =>
    have h1 : x ≠ sep := fun e => h (by simp [e])
    have h2 : sep ∉ a := fun e => h (by simp [e])
    simp [splitChars, h1, ih h2]

theorem validEntryName_data (name : String) (h : validEntryName name) :
    name.data ≠ [] ∧ '/' ∉ name.data ∧ name.data ≠ ['.'] ∧ name.data ≠ ['.', '.'] := by
  obtain ⟨h1, h2, h3, h4⟩ := h
  refine ⟨fun e => h1 (String.ext e), h2, fun e => h3 (String.ext e), fun e => h4 (String.ext e)⟩

theorem join_uioDevicePath (name : String) (h : validEntryName name) :
    path_Join [uioDevicePath, name] = "/dev/" ++ name := by
  obtain ⟨h1, h2, h3, h4⟩ := validEntryName_data name h
  have hs : splitChars '/' ('/' :: 'd' :: 'e' :: 'v' :: '/' :: name.data) =
      [[], ['d', 'e', 'v'], name.data] := by
    have e1 : '/' :: 'd' :: 'e' :: 'v' :: '/' :: name.data =
        [] ++ '/' :: (['d', 'e', 'v'] ++ '/' :: name.data) := rfl
    rw [e1, splitChars_append_sep _ _ _ (by simp), splitChars_append_sep _ _ _ (by decide),
      splitChars_no_sep _ _ h2]
  have hne : joinSlash [uioDevicePath, name] ≠ "" := by
    intro e
    have := congrArg String.data e
    simp [joinSlash, uioDevicePath, List.intercalate] at this
  unfold path_Join
  rw [if_neg (by decide)]
  unfold path_Clean
  rw [if_neg hne]
  apply String.ext
  simp [joinSlash, uioDevicePath, List.intercalate, hs, cleanStep, h1, h3, h4]

theorem join_uioMountPath (name : String) (h : validEntryName name) :
    path_Join [uioMountPath, name, "/device"] = "/sys/class/uio/" ++ name ++ "/device" := by
  obtain ⟨h1, h2, h3, h4⟩ := validEntryName_data name h
  have hs : splitChars '/' ('/' :: 's' :: 'y' :: 's' :: '/' :: 'c' :: 'l' :: 'a' :: 's' :: 's' ::
      '/' :: 'u' :: 'i' :: 'o' :: '/' :: (name.data ++ '/' :: '/' :: 'd' :: 'e' :: 'v' :: 'i' ::
      'c' :: ['e'])) =
      [[], ['s', 'y', 's'], ['c', 'l', 'a', 's', 's'], ['u', 'i', 'o'], name.data, [],
        ['d', 'e', 'v', 'i', 'c', 'e']] := by
    have e1 : '/' :: 's' :: 'y' :: 's' :: '/' :: 'c' :: 'l' :: 'a' :: 's' :: 's' ::
        '/' :: 'u' :: 'i' :: 'o' :: '/' :: (name.data ++ '/' :: '/' :: 'd' :: 'e' :: 'v' :: 'i' ::
        'c' :: ['e']) =
        [] ++ '/' :: (['s', 'y', 's'] ++ '/' :: (['c', 'l', 'a', 's', 's'] ++ '/' ::
          (['u', 'i', 'o'] ++ '/' :: (name.data ++ '/' :: ([] ++ '/' ::
            ['d', 'e', 'v', 'i', 'c', 'e']))))) := rfl
    rw [e1, splitChars_append_sep _ _ _ (by simp), splitChars_append_sep _ _ _ (by decide),
      splitChars_append_sep _ _ _ (by decide), splitChars_append_sep _ _ _ (by decide),
      splitChars_append_sep _ _ _ h2, splitChars_append_sep _ _ _ (by simp),
      splitChars_no_sep _ _ (by decide)]
  have hne : joinSlash [uioMountPath, name, "/device"] ≠ "" := by
    intro e
    have := congrArg String.data e
    simp [joinSlash, uioMountPath, List.intercalate] at this
  unfold path_Join
  rw [if_neg (by decide)]
  unfold path_Clean
  rw [if_neg hne]
  apply String.ext
  simp [joinSlash, uioMountPath, List.intercalate, hs, cleanStep, h1, h3, h4]


/-! ## Traces -/

theorem writeCalls_append (a b : List Event) :
    writeCalls (a ++ b) = writeCalls a ++ writeCalls b := by
  induction a with
  | nil => rfl
  | cons e a ih => cases e <;> simp [writeCalls, ih]

theorem addDeviceCalls_append (a b : List Event) :
    addDeviceCalls (a ++ b) = addDeviceCalls a ++ addDeviceCalls b := by
  induction a with
  | nil => rfl
  | cons e a ih => cases e <;> simp [addDeviceCalls, ih]

theorem notifyCalls_append (a b : List Event) :
    notifyCalls (a ++ b) = notifyCalls a ++ notifyCalls b := by
  induction a with
  | nil => rfl
  | cons e a ih => cases e <;> simp [notifyCalls, ih]

theorem getDpdkDevice_readsOnly (dp : devicePlugin) (fs : FileSystem σ) (s : σ) (id : String) :
    readsOnly (getDpdkDevice dp fs s id).2 := by
  unfold getDpdkDevice
  dsimp only
  split
  · split <;> simp [readsOnly, writeCalls, addDeviceCalls, notifyCalls]
  · split
    · split <;> simp [readsOnly, writeCalls, addDeviceCalls, notifyCalls]
    · simp [readsOnly, writeCalls, addDeviceCalls, notifyCalls]

theorem getDpdkDeviceNames_trace (dp : devicePlugin) (fs : FileSystem σ) (s : σ) (id : String) :
    (getDpdkDeviceNames dp fs s id).2 = (getDpdkDevice dp fs s id).2 := by
  unfold getDpdkDeviceNames
  split
  · simp_all
  · split
    · simp_all
    · split <;> simp_all

theorem getDpdkMountPaths_trace (dp : devicePlugin) (fs : FileSystem σ) (s : σ) (id : String) :
    (getDpdkMountPaths dp fs s id).2 = (getDpdkDevice dp fs s id).2 := by
  unfold getDpdkMountPaths
  split
  · simp_all
  · split
    · simp_all
    · split <;> simp_all

theorem getDpdkDeviceNames_readsOnly (dp : devicePlugin) (fs : FileSystem σ) (s : σ)
    (id : String) : readsOnly (getDpdkDeviceNames dp fs s id).2 := by
  rw [getDpdkDeviceNames_trace]
  exact getDpdkDevice_readsOnly dp fs s id

theorem getDpdkMountPaths_readsOnly (dp : devicePlugin) (fs : FileSystem σ) (s : σ)
    (id : String) : readsOnly (getDpdkMountPaths dp fs s id).2 := by
  rw [getDpdkMountPaths_trace]
  exact getDpdkDevice_readsOnly dp fs s id

/-! ## Rebinding inside a scan -/

theorem getDeviceID_trace (dp : devicePlugin) (fs : FileSystem σ) (s : σ) (pciAddr : String) :
    (getDeviceID dp fs s pciAddr).2 =
      [Event.readFile (path_Join [dp.pciDeviceDir, pciAddr, "device"])] := by
  unfold getDeviceID
  dsimp only
  split <;> rfl

theorem bindDevice_calls (dp : devicePlugin) (fs : FileSystem σ) (s : σ) (id : String) :
    addDeviceCalls (bindDevice dp fs s id).trace = [] ∧
      notifyCalls (bindDevice dp fs s id).trace = [] := by
  unfold bindDevice
  dsimp only
  split
  · simp [addDeviceCalls, notifyCalls]
  · split
    · simp [getDeviceID_trace, addDeviceCalls, notifyCalls]
    · split <;> simp [getDeviceID_trace, addDeviceCalls, notifyCalls]

theorem bindDevice_ok_writes (dp : devicePlugin) (fs : FileSystem σ) (s : σ) (id : String)
    (h : (bindDevice dp fs s id).result = .ok ()) :
    ∃ devID, writeCalls (bindDevice dp fs s id).trace = rebindWrites dp ("0000:" ++ id) devID := by
  unfold bindDevice at h ⊢
  dsimp only at h ⊢
  split at h
  · simp at h
  · split at h
    · simp at h
    · rename_i vfdevID _
      split at h
      · simp at h
      · refine ⟨vfdevID, ?_⟩
        simp_all [getDeviceID_trace, writeCalls, rebindWrites, unbindPath, newIdPath,
          driverUnbindSuffix, newIDSuffix, vendorPrefix]

theorem bindDevice_writes_mem (dp : devicePlugin) (fs : FileSystem σ) (s : σ) (id : String)
    (w : String × String) (hw : w ∈ writeCalls (bindDevice dp fs s id).trace) :
    w = (unbindPath dp ("0000:" ++ id), "0000:" ++ id) ∨
      ∃ devID, w = (newIdPath dp, "8086 " ++ devID) := by
  unfold bindDevice at hw
  dsimp only at hw
  split at hw
  · simp_all [writeCalls, unbindPath, driverUnbindSuffix]
  · split at hw
    · simp_all [getDeviceID_trace, writeCalls, unbindPath, driverUnbindSuffix]
    · rename_i vfdevID _
      split at hw <;>
        simp_all [getDeviceID_trace, writeCalls, unbindPath, newIdPath, driverUnbindSuffix,
          newIDSuffix, vendorPrefix] <;>
        rcases hw with hw | hw <;> simp [hw]

theorem bindDevice_state_inv (dp : devicePlugin) (fs : FileSystem σ) (P : σ → Prop)
    (hP : ∀ s p data, P s → P (fs.WriteFile s p data).2) (s : σ) (id : String) (hs : P s) :
    P (bindDevice dp fs s id).state := by
  unfold bindDevice
  dsimp only
  split
  · exact hP _ _ _ hs
  · split
    · exact hP _ _ _ hs
    · split <;> exact hP _ _ _ (hP _ _ _ hs)

theorem readsOnly_nil : readsOnly [] := ⟨rfl, rfl, rfl⟩

theorem readsOnly_append (a b : List Event) (ha : readsOnly a) (hb : readsOnly b) :
    readsOnly (a ++ b) := by
  obtain ⟨a1, a2, a3⟩ := ha
  obtain ⟨b1, b2, b3⟩ := hb
  exact ⟨by rw [writeCalls_append, a1, b1]; rfl, by rw [addDeviceCalls_append, a2, b2]; rfl,
    by rw [notifyCalls_append, a3, b3]; rfl⟩

/-! ## The loop over the entries of one driver directory -/

theorem scanFiles_skip (dp : devicePlugin) (fs : FileSystem σ) (driver file : String)
    (files : List String) (n : Nat) (s : σ) (t : DeviceTree)
    (hp : strings_HasPrefix file "0000:" = false) :
    scanFiles dp fs driver (file :: files) n s t = scanFiles dp fs driver files n s t := by
  rw [scanFiles]
  simp [hp]

theorem scanFiles_full (dp : devicePlugin) (fs : FileSystem σ) (driver file : String)
    (files : List String) (n : Nat) (s : σ) (t : DeviceTree)
    (hp : strings_HasPrefix file "0000:" = true) (hc : ((n + 1 : Nat) : Int) > dp.maxDevices) :
    scanFiles dp fs driver (file :: files) n s t = { result := .ok t, state := s, trace := [] } := by
  rw [scanFiles]
  simp only [hp, Bool.not_true, Bool.false_eq_true, if_false]
  rw [if_pos hc]

theorem scanFiles_accept (dp : devicePlugin) (fs : FileSystem σ) (driver file : String)
    (files : List String) (n : Nat) (s : σ) (t : DeviceTree)
    (hp : strings_HasPrefix file "0000:" = true)
    (hc : ¬ ((n + 1 : Nat) : Int) > dp.maxDevices) :
    (∃ e tr, (scanFiles dp fs driver (file :: files) n s t).result = .error e ∧
      (scanFiles dp fs driver (file :: files) n s t).state =
        (bindIfKernelDriver dp fs driver s (strings_TrimPrefix file "0000:")).state ∧
      readsOnly tr ∧
      (scanFiles dp fs driver (file :: files) n s t).trace =
        (bindIfKernelDriver dp fs driver s (strings_TrimPrefix file "0000:")).trace ++ tr) ∨
    (∃ devNodes devMounts tr,
      (bindIfKernelDriver dp fs driver s (strings_TrimPrefix file "0000:")).result = .ok () ∧
      readsOnly tr ∧
      (scanFiles dp fs driver (file :: files) n s t).result =
        (scanFiles dp fs driver files (n + 1)
          (bindIfKernelDriver dp fs driver s (strings_TrimPrefix file "0000:")).state
          (AddDevice t "generic" (strings_TrimPrefix file "0000:")
            (entryInfo file (n + 1) devNodes devMounts))).result ∧
      (scanFiles dp fs driver (file :: files) n s t).state =
        (scanFiles dp fs driver files (n + 1)
          (bindIfKernelDriver dp fs driver s (strings_TrimPrefix file "0000:")).state
          (AddDevice t "generic" (strings_TrimPrefix file "0000:")
            (entryInfo file (n + 1) devNodes devMounts))).state ∧
      (scanFiles dp fs driver (file :: files) n s t).trace =
        (bindIfKernelDriver dp fs driver s (strings_TrimPrefix file "0000:")).trace ++ tr ++
          Event.addDevice "generic" (strings_TrimPrefix file "0000:")
            (entryInfo file (n + 1) devNodes devMounts) ::
          (scanFiles dp fs driver files (n + 1)
            (bindIfKernelDriver dp fs driver s (strings_TrimPrefix file "0000:")).state
            (AddDevice t "generic" (strings_TrimPrefix file "0000:")
              (entryInfo file (n + 1) devNodes devMounts))).trace) := by
  rw [scanFiles]
  simp only [hp, Bool.not_true, Bool.false_eq_true, if_false]
  rw [if_neg hc]
  cases hb : (bindIfKernelDriver dp fs driver s (strings_TrimPrefix file "0000:")).result with
  | error e =>
    left
    exact ⟨_, [], rfl, rfl, readsOnly_nil, by simp⟩
  | ok u =>
    cases hn : (getDpdkDeviceNames dp fs
        (bindIfKernelDriver dp fs driver s (strings_TrimPrefix file "0000:")).state
        (strings_TrimPrefix file "0000:")).1 with
    | error e =>
      left
      exact ⟨_, _, rfl, rfl, getDpdkDeviceNames_readsOnly _ _ _ _, rfl⟩
    | ok devNodes =>
      cases hm : (getDpdkMountPaths dp fs
          (bindIfKernelDriver dp fs driver s (strings_TrimPrefix file "0000:")).state
          (strings_TrimPrefix file "0000:")).1 with
      | error e =>
        left
        refine ⟨_, _, rfl, rfl, readsOnly_append _ _
          (getDpdkDeviceNames_readsOnly dp fs
            (bindIfKernelDriver dp fs driver s (strings_TrimPrefix file "0000:")).state
            (strings_TrimPrefix file "0000:"))
          (getDpdkMountPaths_readsOnly dp fs
            (bindIfKernelDriver dp fs driver s (strings_TrimPrefix file "0000:")).state
            (strings_TrimPrefix file "0000:")), ?_⟩
        simp
      | ok devMounts =>
        right
        refine ⟨devNodes, devMounts, _, rfl, readsOnly_append _ _
          (getDpdkDeviceNames_readsOnly dp fs
            (bindIfKernelDriver dp fs driver s (strings_TrimPrefix file "0000:")).state
            (strings_TrimPrefix file "0000:"))
          (getDpdkMountPaths_readsOnly dp fs
            (bindIfKernelDriver dp fs driver s (strings_TrimPrefix file "0000:")).state
            (strings_TrimPrefix file "0000:")), rfl, rfl, ?_⟩
        simp [entryInfo]

theorem bindIf_target (dp : devicePlugin) (fs : FileSystem σ) (driver : String) (s : σ)
    (id : String) (hd : driver = dp.dpdkDriver) :
    bindIfKernelDriver dp fs driver s id = { result := .ok (), state := s, trace := [] } := by
  simp [bindIfKernelDriver, hd]

theorem bindIf_calls (dp : devicePlugin) (fs : FileSystem σ) (driver : String) (s : σ)
    (id : String) :
    addDeviceCalls (bindIfKernelDriver dp fs driver s id).trace = [] ∧
      notifyCalls (bindIfKernelDriver dp fs driver s id).trace = [] := by
  unfold bindIfKernelDriver
  split
  · exact bindDevice_calls dp fs s id
  · exact ⟨rfl, rfl⟩

theorem bindIf_ok_writes (dp : devicePlugin) (fs : FileSystem σ) (driver : String) (s : σ)
    (file : String) (hd : driver ≠ dp.dpdkDriver) (hp : strings_HasPrefix file "0000:" = true)
    (h : (bindIfKernelDriver dp fs driver s (strings_TrimPrefix file "0000:")).result = .ok ()) :
    ∃ devID, writeCalls (bindIfKernelDriver dp fs driver s
      (strings_TrimPrefix file "0000:")).trace = rebindWrites dp file devID := by
  unfold bindIfKernelDriver at h ⊢
  rw [if_pos hd] at h ⊢
  obtain ⟨devID, hw⟩ := bindDevice_ok_writes dp fs s _ h
  rw [hasPrefix_append_trimPrefix file "0000:" hp] at hw
  exact ⟨devID, hw⟩

theorem bindIf_writes_mem (dp : devicePlugin) (fs : FileSystem σ) (driver : String) (s : σ)
    (file : String) (hp : strings_HasPrefix file "0000:" = true) (w : String × String)
    (hw : w ∈ writeCalls (bindIfKernelDriver dp fs driver s
      (strings_TrimPrefix file "0000:")).trace) :
    driver ≠ dp.dpdkDriver ∧
      (w = (unbindPath dp file, file) ∨ ∃ devID, w = (newIdPath dp, "8086 " ++ devID)) := by
  unfold bindIfKernelDriver at hw
  by_cases hd : driver = dp.dpdkDriver
  · rw [if_neg (by simpa using hd)] at hw
    simp [writeCalls] at hw
  · rw [if_pos hd] at hw
    have := bindDevice_writes_mem dp fs s _ w hw
    rw [hasPrefix_append_trimPrefix file "0000:" hp] at this
    exact ⟨hd, this⟩

theorem bindIf_state_inv (dp : devicePlugin) (fs : FileSystem σ) (P : σ → Prop)
    (hP : ∀ s p data, P s → P (fs.WriteFile s p data).2) (driver : String) (s : σ)
    (id : String) (hs : P s) : P (bindIfKernelDriver dp fs driver s id).state := by
  unfold bindIfKernelDriver
  split
  · exact bindDevice_state_inv dp fs P hP s id hs
  · exact hs

theorem busEntries_cons_pos (file : String) (files : List String)
    (hp : strings_HasPrefix file "0000:" = true) :
    busEntries (file :: files) = file :: busEntries files := by
  simp [busEntries, hp]

theorem busEntries_cons_neg (file : String) (files : List String)
    (hp : strings_HasPrefix file "0000:" = false) :
    busEntries (file :: files) = busEntries files := by
  simp [busEntries, hp]

/-- A successful run of the loop, started with `n` entries counted: the
`AddDevice` calls, the writes and the inventory. -/
theorem scanFiles_ok (dp : devicePlugin) (fs : FileSystem σ) (driver : String)
    (files : List String) : ∀ (n : Nat) (s : σ) (t t1 : DeviceTree),
    (scanFiles dp fs driver files n s t).result = .ok t1 →
    (addDeviceCalls (scanFiles dp fs driver files n s t).trace).map callSummary =
        (((busEntries files).take (dp.maxDevices.toNat - n)).enumFrom (n + 1)).map expectedCall ∧
      (driver ≠ dp.dpdkDriver → ∃ ids : List String,
        ids.length = ((busEntries files).take (dp.maxDevices.toNat - n)).length ∧
        writeCalls (scanFiles dp fs driver files n s t).trace =
          ((((busEntries files).take (dp.maxDevices.toNat - n)).zip ids).map
            (fun p => rebindWrites dp p.1 p.2)).flatten) ∧
      (driver = dp.dpdkDriver → writeCalls (scanFiles dp fs driver files n s t).trace = []) ∧
      notifyCalls (scanFiles dp fs driver files n s t).trace = [] ∧
      t1 = applyCalls t (addDeviceCalls (scanFiles dp fs driver files n s t).trace) := by
  induction files with
  | nil =>
    intro n s t t1 h
    simp [scanFiles] at h
    simp [scanFiles, busEntries, addDeviceCalls, writeCalls, notifyCalls, applyCalls, h]
  | cons file files ih =>
    intro n s t t1 h
    by_cases hp : strings_HasPrefix file "0000:" = true
    · by_cases hc : ((n + 1 : Nat) : Int) > dp.maxDevices
      · rw [scanFiles_full dp fs driver file files n s t hp hc] at h ⊢
        have h0 : dp.maxDevices.toNat - n = 0 := by omega
        simp at h
        simp [h0, addDeviceCalls, writeCalls, notifyCalls, applyCalls, h]
      · have h1 : dp.maxDevices.toNat - n = (dp.maxDevices.toNat - (n + 1)) + 1 := by omega
        rcases scanFiles_accept dp fs driver file files n s t hp hc with
          ⟨e, tr, he, -, -, -⟩ | ⟨devNodes, devMounts, tr, hb, htr, hres, -, htrace⟩
        · rw [he] at h
          cases h
        · rw [hres] at h
          obtain ⟨ih1, ih2, ih3, ih4, ih5⟩ := ih (n + 1) _ _ t1 h
          obtain ⟨hb1, hb2⟩ := bindIf_calls dp fs driver s (strings_TrimPrefix file "0000:")
          obtain ⟨r1, r2, r3⟩ := htr
          rw [htrace, busEntries_cons_pos file files hp, h1, List.take_succ_cons]
          refine ⟨?_, ?_, ?_, ?_, ?_⟩
          · simp only [addDeviceCalls_append, hb1, r2, addDeviceCalls, List.nil_append,
              List.map_cons, ih1, List.enumFrom_cons]
            simp [callSummary, expectedCall, entryInfo, pluginapi_Healthy, namespace_]
          · intro hd
            obtain ⟨ids, hl, hw⟩ := ih2 hd
            obtain ⟨devID, hbw⟩ := bindIf_ok_writes dp fs driver s file hd hp hb
            refine ⟨devID :: ids, by simp [hl], ?_⟩
            simp only [writeCalls_append, hbw, r1, writeCalls, hw]
            simp
          · intro hd
            simp only [writeCalls_append, r1, writeCalls, ih3 hd]
            rw [bindIf_target dp fs driver s _ hd]
            simp [writeCalls]
          · simp only [notifyCalls_append, hb2, r3, notifyCalls, ih4]
            simp
          · rw [ih5]
            simp only [addDeviceCalls_append, hb1, r2, addDeviceCalls, List.nil_append]
            simp [applyCalls]
    · have hp1 : strings_HasPrefix file "0000:" = false := by simpa using hp
      rw [scanFiles_skip dp fs driver file files n s t hp1] at h ⊢
      rw [busEntries_cons_neg file files hp1]
      exact ih n s t t1 h

theorem acceptedEntries_eq (dp : devicePlugin) (files : List String) :
    acceptedEntries dp files = (busEntries files).take (dp.maxDevices.toNat - 0) := by
  unfold acceptedEntries
  rw [Nat.sub_zero]
  by_cases h : dp.maxDevices.toNat ≤ (busEntries files).length
  · rw [Nat.min_eq_left h]
  · rw [Nat.min_eq_right (by omega), List.take_length, List.take_of_length_le (by omega)]

theorem scanFiles_no_entries (dp : devicePlugin) (fs : FileSystem σ) (driver : String)
    (files : List String) (n : Nat) (s : σ) (t : DeviceTree) (h : busEntries files = []) :
    scanFiles dp fs driver files n s t = { result := .ok t, state := s, trace := [] } := by
  induction files with
  | nil => simp [scanFiles]
  | cons file files ih =>
    by_cases hp : strings_HasPrefix file "0000:" = true
    · rw [busEntries_cons_pos file files hp] at h
      cases h
    · have hp1 : strings_HasPrefix file "0000:" = false := by simpa using hp
      rw [busEntries_cons_neg file files hp1] at h
      rw [scanFiles_skip dp fs driver file files n s t hp1]
      exact ih h

/-- What holds of the loop whatever its result: no `Notify` call, writes only
under a driver other than the DPDK driver and only for accepted entries, and a
state reached through writes. -/
theorem scanFiles_any (dp : devicePlugin) (fs : FileSystem σ) (driver : String)
    (P : σ → Prop) (hP : ∀ s p data, P s → P (fs.WriteFile s p data).2)
    (files : List String) : ∀ (n : Nat) (s : σ) (t : DeviceTree),
    notifyCalls (scanFiles dp fs driver files n s t).trace = [] ∧
      (P s → P (scanFiles dp fs driver files n s t).state) ∧
      (driver = dp.dpdkDriver → writeCalls (scanFiles dp fs driver files n s t).trace = [] ∧
        (scanFiles dp fs driver files n s t).state = s) ∧
      (∀ w ∈ writeCalls (scanFiles dp fs driver files n s t).trace,
        driver ≠ dp.dpdkDriver ∧
          ∃ file ∈ (busEntries files).take (dp.maxDevices.toNat - n),
            w = (unbindPath dp file, file) ∨ ∃ devID, w = (newIdPath dp, "8086 " ++ devID)) := by
  induction files with
  | nil =>
    intro n s t
    simp [scanFiles, notifyCalls, writeCalls]
  | cons file files ih =>
    intro n s t
    by_cases hp : strings_HasPrefix file "0000:" = true
    · by_cases hc : ((n + 1 : Nat) : Int) > dp.maxDevices
      · rw [scanFiles_full dp fs driver file files n s t hp hc]
        simp [notifyCalls, writeCalls]
      · have h1 : dp.maxDevices.toNat - n = (dp.maxDevices.toNat - (n + 1)) + 1 := by omega
        obtain ⟨hb1, hb2⟩ := bindIf_calls dp fs driver s (strings_TrimPrefix file "0000:")
        rw [busEntries_cons_pos file files hp, h1, List.take_succ_cons]
        rcases scanFiles_accept dp fs driver file files n s t hp hc with
          ⟨e, tr, -, hst, htr, htrace⟩ | ⟨devNodes, devMounts, tr, -, htr, -, hst, htrace⟩
        · obtain ⟨r1, r2, r3⟩ := htr
          rw [hst, htrace]
          refine ⟨?_, ?_, ?_, ?_⟩
          · simp [notifyCalls_append, hb2, r3]
          · exact bindIf_state_inv dp fs P hP driver s _
          · intro hd
            rw [bindIf_target dp fs driver s _ hd]
            simp [writeCalls_append, r1, writeCalls]
          · intro w hw
            simp only [writeCalls_append, r1, List.append_nil] at hw
            obtain ⟨hd, hw1⟩ := bindIf_writes_mem dp fs driver s file hp w hw
            exact ⟨hd, file, by simp, hw1⟩
        · obtain ⟨r1, r2, r3⟩ := htr
          obtain ⟨i1, i2, i3, i4⟩ := ih (n + 1)
            (bindIfKernelDriver dp fs driver s (strings_TrimPrefix file "0000:")).state
            (AddDevice t "generic" (strings_TrimPrefix file "0000:")
              (entryInfo file (n + 1) devNodes devMounts))
          rw [hst, htrace]
          refine ⟨?_, ?_, ?_, ?_⟩
          · simp [notifyCalls_append, hb2, r3, notifyCalls, i1]
          · intro hs
            exact i2 (bindIf_state_inv dp fs P hP driver s _ hs)
          · intro hd
            obtain ⟨j1, j2⟩ := i3 hd
            rw [j2]
            simp only [writeCalls_append, r1, writeCalls, j1]
            rw [bindIf_target dp fs driver s _ hd]
            simp [writeCalls]
          · intro w hw
            simp only [writeCalls_append, r1, writeCalls, List.append_nil, List.mem_append] at hw
            rcases hw with hw | hw
            · obtain ⟨hd, hw1⟩ := bindIf_writes_mem dp fs driver s file hp w hw
              exact ⟨hd, file, by simp, hw1⟩
            · obtain ⟨hd, f, hf, hw1⟩ := i4 w hw
              exact ⟨hd, f, by simp [hf], hw1⟩
    · have hp1 : strings_HasPrefix file "0000:" = false := by simpa using hp
      rw [scanFiles_skip dp fs driver file files n s t hp1, busEntries_cons_neg file files hp1]
      exact ih n s t

/-! ## One driver, then all drivers -/

theorem scanDriver_unreadable (dp : devicePlugin) (fs : FileSystem σ) (driver : String) (s : σ)
    (t : DeviceTree) (e : String) (h : fs.ReadDir s (driverDir dp driver) = .error e) :
    scanDriver dp fs driver s t =
      { result := .error ("Can\x27t read sysfs for driver " ++ driver ++ ": " ++ e)
        state := s
        trace := [Event.readDir (driverDir dp driver)] } := by
  unfold driverDir at h
  simp [scanDriver, h, driverDir]

theorem scanDriver_readable (dp : devicePlugin) (fs : FileSystem σ) (driver : String) (s : σ)
    (t : DeviceTree) (files : List String) (h : fs.ReadDir s (driverDir dp driver) = .ok files) :
    scanDriver dp fs driver s t =
      { result := (scanFiles dp fs driver files 0 s t).result
        state := (scanFiles dp fs driver files 0 s t).state
        trace := Event.readDir (driverDir dp driver) ::
          (scanFiles dp fs driver files 0 s t).trace } := by
  unfold driverDir at h
  simp [scanDriver, h, driverDir]

/-- A successful visit of one driver directory. -/
theorem scanDriver_ok (dp : devicePlugin) (fs : FileSystem σ) (driver : String) (s : σ)
    (t t1 : DeviceTree) (h : (scanDriver dp fs driver s t).result = .ok t1) :
    ∃ files, fs.ReadDir s (driverDir dp driver) = .ok files ∧
      (addDeviceCalls (scanDriver dp fs driver s t).trace).map callSummary =
        ((acceptedEntries dp files).enumFrom 1).map expectedCall ∧
      (driver ≠ dp.dpdkDriver → ∃ ids : List String,
        ids.length = (acceptedEntries dp files).length ∧
        writeCalls (scanDriver dp fs driver s t).trace =
          (((acceptedEntries dp files).zip ids).map (fun p => rebindWrites dp p.1 p.2)).flatten) ∧
      (driver = dp.dpdkDriver → writeCalls (scanDriver dp fs driver s t).trace = []) ∧
      t1 = applyCalls t (addDeviceCalls (scanDriver dp fs driver s t).trace) := by
  cases hr : fs.ReadDir s (driverDir dp driver) with
  | error e =>
    rw [scanDriver_unreadable dp fs driver s t e hr] at h
    cases h
  | ok files =>
    rw [scanDriver_readable dp fs driver s t files hr] at h ⊢
    obtain ⟨h1, h2, h3, -, h5⟩ := scanFiles_ok dp fs driver files 0 s t t1 h
    rw [← acceptedEntries_eq] at h1 h2
    exact ⟨files, rfl, by simpa [addDeviceCalls] using h1, by simpa [writeCalls] using h2,
      by simpa [writeCalls] using h3, by simpa [addDeviceCalls] using h5⟩

/-- What holds of a visit whatever its result. -/
theorem scanDriver_any (dp : devicePlugin) (fs : FileSystem σ) (driver : String)
    (P : σ → Prop) (hP : ∀ s p data, P s → P (fs.WriteFile s p data).2) (s : σ)
    (t : DeviceTree) :
    notifyCalls (scanDriver dp fs driver s t).trace = [] ∧
      (P s → P (scanDriver dp fs driver s t).state) ∧
      (driver = dp.dpdkDriver → writeCalls (scanDriver dp fs driver s t).trace = [] ∧
        (scanDriver dp fs driver s t).state = s) ∧
      (∀ w ∈ writeCalls (scanDriver dp fs driver s t).trace,
        driver ≠ dp.dpdkDriver ∧
          ∃ files, fs.ReadDir s (driverDir dp driver) = .ok files ∧
            ∃ file ∈ acceptedEntries dp files,
              w = (unbindPath dp file, file) ∨ ∃ devID, w = (newIdPath dp, "8086 " ++ devID)) := by
  cases hr : fs.ReadDir s (driverDir dp driver) with
  | error e =>
    rw [scanDriver_unreadable dp fs driver s t e hr]
    simp [notifyCalls, writeCalls]
  | ok files =>
    rw [scanDriver_readable dp fs driver s t files hr]
    obtain ⟨h1, h2, h3, h4⟩ := scanFiles_any dp fs driver P hP files 0 s t
    rw [← acceptedEntries_eq] at h4
    refine ⟨by simpa [notifyCalls] using h1, h2, by simpa [writeCalls] using h3, ?_⟩
    intro w hw
    simp only [writeCalls] at hw
    obtain ⟨hd, f, hf, hw1⟩ := h4 w hw
    exact ⟨hd, files, rfl, f, hf, hw1⟩

theorem scanDrivers_cons_error (dp : devicePlugin) (fs : FileSystem σ) (d : String)
    (ds : List String) (s : σ) (t : DeviceTree) (e : String)
    (h : (scanDriver dp fs d s t).result = .error e) :
    scanDrivers dp fs (d :: ds) s t =
      { result := .error e
        state := (scanDriver dp fs d s t).state
        trace := (scanDriver dp fs d s t).trace } := by
  simp [scanDrivers, h]

theorem scanDrivers_cons_ok (dp : devicePlugin) (fs : FileSystem σ) (d : String)
    (ds : List String) (s : σ) (t t0 : DeviceTree)
    (h : (scanDriver dp fs d s t).result = .ok t0) :
    scanDrivers dp fs (d :: ds) s t =
      { result := (scanDrivers dp fs ds (scanDriver dp fs d s t).state t0).result
        state := (scanDrivers dp fs ds (scanDriver dp fs d s t).state t0).state
        trace := (scanDriver dp fs d s t).trace ++
          (scanDrivers dp fs ds (scanDriver dp fs d s t).state t0).trace } := by
  simp [scanDrivers, h]

theorem scanDrivers_append (dp : devicePlugin) (fs : FileSystem σ) (pre post : List String) :
    ∀ (s : σ) (t : DeviceTree),
    ((∃ e, (scanDrivers dp fs pre s t).result = .error e) →
      scanDrivers dp fs (pre ++ post) s t = scanDrivers dp fs pre s t) ∧
    (∀ t1, (scanDrivers dp fs pre s t).result = .ok t1 →
      scanDrivers dp fs (pre ++ post) s t =
        { result := (scanDrivers dp fs post (scanDrivers dp fs pre s t).state t1).result
          state := (scanDrivers dp fs post (scanDrivers dp fs pre s t).state t1).state
          trace := (scanDrivers dp fs pre s t).trace ++
            (scanDrivers dp fs post (scanDrivers dp fs pre s t).state t1).trace }) := by
  induction pre with
  | nil =>
    intro s t
    simp [scanDrivers]
  | cons d pre ih =>
    intro s t
    rw [List.cons_append]
    cases hr : (scanDriver dp fs d s t).result with
    | error e =>
      rw [scanDrivers_cons_error dp fs d _ s t e hr, scanDrivers_cons_error dp fs d _ s t e hr]
      simp
    | ok t0 =>
      obtain ⟨ih1, ih2⟩ := ih (scanDriver dp fs d s t).state t0
      rw [scanDrivers_cons_ok dp fs d _ s t t0 hr, scanDrivers_cons_ok dp fs d _ s t t0 hr]
      constructor
      · rintro ⟨e, he⟩
        rw [ih1 ⟨e, he⟩]
      · intro t1 h1
        rw [ih2 t1 h1]
        simp

/-- A successful scan of `pre ++ d :: post` is a successful scan of `pre`, then
a successful visit of `d`, then a successful scan of `post`. -/
theorem scanDrivers_split_ok (dp : devicePlugin) (fs : FileSystem σ) (pre : List String)
    (d : String) (post : List String) (s : σ) (t tf : DeviceTree)
    (h : (scanDrivers dp fs (pre ++ d :: post) s t).result = .ok tf) :
    ∃ t1 t2, (scanDrivers dp fs pre s t).result = .ok t1 ∧
      (scanDriver dp fs d (scanDrivers dp fs pre s t).state t1).result = .ok t2 ∧
      (scanDrivers dp fs post
        (scanDriver dp fs d (scanDrivers dp fs pre s t).state t1).state t2).result = .ok tf ∧
      (scanDrivers dp fs (pre ++ d :: post) s t).trace =
        (scanDrivers dp fs pre s t).trace ++
          (scanDriver dp fs d (scanDrivers dp fs pre s t).state t1).trace ++
          (scanDrivers dp fs post
            (scanDriver dp fs d (scanDrivers dp fs pre s t).state t1).state t2).trace := by
  obtain ⟨a1, a2⟩ := scanDrivers_append dp fs pre (d :: post) s t
  cases hpre : (scanDrivers dp fs pre s t).result with
  | error e =>
    rw [a1 ⟨e, hpre⟩, hpre] at h
    cases h
  | ok t1 =>
    rw [a2 t1 hpre] at h ⊢
    cases hd : (scanDriver dp fs d (scanDrivers dp fs pre s t).state t1).result with
    | error e =>
      rw [scanDrivers_cons_error dp fs d post _ t1 e hd] at h
      cases h
    | ok t2 =>
      rw [scanDrivers_cons_ok dp fs d post _ t1 t2 hd] at h ⊢
      exact ⟨t1, t2, rfl, hd, h, by simp⟩

/-- What holds of a scan of a list of drivers whatever its result. -/
theorem scanDrivers_any (dp : devicePlugin) (fs : FileSystem σ)
    (P : σ → Prop) (hP : ∀ s p data, P s → P (fs.WriteFile s p data).2)
    (ds : List String) : ∀ (s : σ) (t : DeviceTree),
    notifyCalls (scanDrivers dp fs ds s t).trace = [] ∧
      (P s → P (scanDrivers dp fs ds s t).state) ∧
      (∀ w ∈ writeCalls (scanDrivers dp fs ds s t).trace,
        ∃ pre d post t1, ds = pre ++ d :: post ∧
          (scanDrivers dp fs pre s t).result = .ok t1 ∧
          w ∈ writeCalls (scanDriver dp fs d (scanDrivers dp fs pre s t).state t1).trace) := by
  induction ds with
  | nil =>
    intro s t
    simp [scanDrivers, notifyCalls, writeCalls]
  | cons d ds ih =>
    intro s t
    obtain ⟨v1, v2, -, -⟩ := scanDriver_any dp fs d P hP s t
    cases hr : (scanDriver dp fs d s t).result with
    | error e =>
      rw [scanDrivers_cons_error dp fs d ds s t e hr]
      refine ⟨v1, v2, ?_⟩
      intro w hw
      exact ⟨[], d, ds, t, rfl, rfl, hw⟩
    | ok t0 =>
      obtain ⟨i1, i2, i3⟩ := ih (scanDriver dp fs d s t).state t0
      rw [scanDrivers_cons_ok dp fs d ds s t t0 hr]
      refine ⟨by simp [notifyCalls_append, v1, i1], fun hs => i2 (v2 hs), ?_⟩
      intro w hw
      simp only [writeCalls_append, List.mem_append] at hw
      rcases hw with hw | hw
      · exact ⟨[], d, ds, t, rfl, rfl, hw⟩
      · obtain ⟨pre, d1, post, t1, hds, hpre, hw1⟩ := i3 w hw
        refine ⟨d :: pre, d1, post, t1, by simp [hds], ?_, ?_⟩
        · rw [scanDrivers_cons_ok dp fs d pre s t t0 hr]
          exact hpre
        · rw [scanDrivers_cons_ok dp fs d pre s t t0 hr]
          exact hw1

/-- With no bus entry under any driver other than the DPDK driver, a scan
writes nothing and leaves the filesystem as it is. -/
theorem scanDrivers_no_entries (dp : devicePlugin) (fs : FileSystem σ) (s : σ)
    (ds : List String)
    (h : ∀ d ∈ ds, d ≠ dp.dpdkDriver →
      ∀ files, fs.ReadDir s (driverDir dp d) = .ok files → busEntries files = []) :
    ∀ t : DeviceTree, writeCalls (scanDrivers dp fs ds s t).trace = [] ∧
      (scanDrivers dp fs ds s t).state = s := by
  induction ds with
  | nil =>
    intro t
    simp [scanDrivers, writeCalls]
  | cons d ds ih =>
    intro t
    have hv : writeCalls (scanDriver dp fs d s t).trace = [] ∧
        (scanDriver dp fs d s t).state = s := by
      by_cases hd : d = dp.dpdkDriver
      · exact (scanDriver_any dp fs d (fun _ => True) (fun _ _ _ _ => trivial) s t).2.2.1 hd
      · cases hr : fs.ReadDir s (driverDir dp d) with
        | error e =>
          rw [scanDriver_unreadable dp fs d s t e hr]
          simp [writeCalls]
        | ok files =>
          rw [scanDriver_readable dp fs d s t files hr,
            scanFiles_no_entries dp fs d files 0 s t (h d (by simp) hd files hr)]
          simp [writeCalls]
    cases hr : (scanDriver dp fs d s t).result with
    | error e =>
      rw [scanDrivers_cons_error dp fs d ds s t e hr]
      exact hv
    | ok t0 =>
      rw [scanDrivers_cons_ok dp fs d ds s t t0 hr]
      obtain ⟨hv1, hv2⟩ := hv
      rw [hv2]
      obtain ⟨i1, i2⟩ := ih (fun d1 hd1 => h d1 (by simp [hd1])) t0
      exact ⟨by simp [writeCalls_append, hv1, i1], i2⟩

/-! ## The inventory -/

theorem mapLookup_insert_same {β : Type} (k : String) (v : β) (l : List (String × β)) :
    mapLookup k (mapInsert k v l) = some v := by
  induction l with
  | nil => simp [mapInsert, mapLookup]
  | cons p l ih =>
    obtain ⟨k1, v1⟩ := p
    by_cases h : k1 = k
    · simp [mapInsert, mapLookup, h]
    · simp [mapInsert, mapLookup, h, ih]

theorem mapLookup_insert_other {β : Type} (k k1 : String) (v : β) (l : List (String × β))
    (h : k1 ≠ k) : mapLookup k1 (mapInsert k v l) = mapLookup k1 l := by
  induction l with
  | nil => simp [mapInsert, mapLookup, Ne.symm h]
  | cons p l ih =>
    obtain ⟨k2, v2⟩ := p
    by_cases h2 : k2 = k
    · subst h2
      simp [mapInsert, mapLookup, Ne.symm h]
    · by_cases h3 : k2 = k1
      · subst h3
        simp [mapInsert, mapLookup, h2]
      · simp [mapInsert, mapLookup, h2, h3, ih]

theorem device_AddDevice_same (t : DeviceTree) (c k : String) (i : DeviceInfo) :
    (AddDevice t c k i).device c k = some i := by
  simp [DeviceTree.device, AddDevice, mapLookup_insert_same]

theorem device_AddDevice_other (t : DeviceTree) (c k k1 : String) (i : DeviceInfo)
    (h : k1 ≠ k) : (AddDevice t c k i).device c k1 = t.device c k1 := by
  simp only [DeviceTree.device, AddDevice, mapLookup_insert_same, Option.some_bind]
  rw [mapLookup_insert_other k k1 i _ h]
  cases mapLookup c t <;> simp [mapLookup]

theorem healthyAt_AddDevice (t : DeviceTree) (k k1 : String) (i : DeviceInfo)
    (hi : i.State = "Healthy") (h : healthyAt t k1 ∨ k = k1) :
    healthyAt (AddDevice t "generic" k i) k1 := by
  by_cases hk : k1 = k
  · subst hk
    exact ⟨i, device_AddDevice_same t "generic" k1 i, hi⟩
  · rcases h with h | h
    · obtain ⟨j, hj, hs⟩ := h
      exact ⟨j, by rw [device_AddDevice_other t "generic" k k1 i hk]; exact hj, hs⟩
    · exact absurd h.symm hk

theorem applyCalls_append (t : DeviceTree) (a b : List (String × String × DeviceInfo)) :
    applyCalls t (a ++ b) = applyCalls (applyCalls t a) b := by
  simp [applyCalls, List.foldl_append]

theorem applyCalls_healthy (calls : List (String × String × DeviceInfo)) :
    ∀ (t : DeviceTree) (k : String),
    (∀ c ∈ calls, c.1 = "generic" ∧ c.2.2.State = "Healthy") →
    (healthyAt t k ∨ ∃ c ∈ calls, c.2.1 = k) → healthyAt (applyCalls t calls) k := by
  induction calls with
  | nil =>
    intro t k _ h
    rcases h with h | ⟨c, hc, -⟩
    · exact h
    · simp at hc
  | cons c calls ih =>
    intro t k hall h
    obtain ⟨hc1, hc2⟩ := hall c (by simp)
    have hstep : applyCalls t (c :: calls) = applyCalls (AddDevice t "generic" c.2.1 c.2.2) calls := by
      simp [applyCalls, hc1]
    rw [hstep]
    apply ih _ k (fun c1 h1 => hall c1 (by simp [h1]))
    rcases h with h | ⟨c1, h1, h2⟩
    · exact Or.inl (healthyAt_AddDevice t c.2.1 k c.2.2 hc2 (Or.inl h))
    · rcases List.mem_cons.mp h1 with h3 | h3
      · subst h3
        exact Or.inl (healthyAt_AddDevice t c1.2.1 k c1.2.2 hc2 (Or.inr h2))
      · exact Or.inr ⟨c1, h3, h2⟩

theorem summary_healthy (calls : List (String × String × DeviceInfo)) (l : List (Nat × String))
    (h : calls.map callSummary = l.map expectedCall) :
    ∀ c ∈ calls, c.1 = "generic" ∧ c.2.2.State = "Healthy" := by
  intro c hc
  have h1 : callSummary c ∈ l.map expectedCall := by
    rw [← h]
    exact List.mem_map_of_mem _ hc
  obtain ⟨p, -, hp⟩ := List.mem_map.mp h1
  simp only [callSummary, expectedCall, Prod.mk.injEq] at hp
  exact ⟨hp.1.symm, hp.2.2.1.symm⟩

theorem summary_has_entry (calls : List (String × String × DeviceInfo)) (n : Nat)
    (l : List String) (h : calls.map callSummary = (l.enumFrom n).map expectedCall)
    (e : String) (he : e ∈ l) : ∃ c ∈ calls, c.2.1 = strings_TrimPrefix e "0000:" := by
  have h0 : e ∈ (l.enumFrom n).map Prod.snd := by
    rw [List.enumFrom_map_snd]
    exact he
  obtain ⟨p, hp, hpe⟩ := List.mem_map.mp h0
  have h1 : expectedCall p ∈ calls.map callSummary := by
    rw [h]
    exact List.mem_map_of_mem _ hp
  obtain ⟨c, hc, hce⟩ := List.mem_map.mp h1
  simp only [callSummary, expectedCall, Prod.mk.injEq] at hce
  exact ⟨c, hc, by rw [hce.2.1, hpe]⟩

/-- The inventory of a successful scan is the one its `AddDevice` calls build,
and every call stores a healthy descriptor under class "generic". -/
theorem scanDrivers_ok_calls (dp : devicePlugin) (fs : FileSystem σ) (ds : List String) :
    ∀ (s : σ) (t tf : DeviceTree), (scanDrivers dp fs ds s t).result = .ok tf →
    tf = applyCalls t (addDeviceCalls (scanDrivers dp fs ds s t).trace) ∧
      ∀ c ∈ addDeviceCalls (scanDrivers dp fs ds s t).trace,
        c.1 = "generic" ∧ c.2.2.State = "Healthy" := by
  induction ds with
  | nil =>
    intro s t tf h
    simp [scanDrivers] at h
    simp [scanDrivers, addDeviceCalls, applyCalls, h]
  | cons d ds ih =>
    intro s t tf h
    cases hr : (scanDriver dp fs d s t).result with
    | error e =>
      rw [scanDrivers_cons_error dp fs d ds s t e hr] at h
      cases h
    | ok t0 =>
      rw [scanDrivers_cons_ok dp fs d ds s t t0 hr] at h ⊢
      obtain ⟨i1, i2⟩ := ih _ t0 tf h
      obtain ⟨files, -, v1, -, -, v4⟩ := scanDriver_ok dp fs d s t t0 hr
      have v5 := summary_healthy _ _ v1
      refine ⟨?_, ?_⟩
      · rw [addDeviceCalls_append, applyCalls_append, ← v4]
        exact i1
      · intro c hc
        rw [addDeviceCalls_append] at hc
        rcases List.mem_append.mp hc with hc | hc
        · exact v5 c hc
        · exact i2 c hc

/-! ## The device identifier (C7) -/

/-- C7 as stated fails: the identifier "0x0x8086" is resolved to "0x8086", which
starts with "0x", and "0x 8086" to " 8086", which starts with white space. -/
theorem getDeviceID_keeps_second_0x :
    (getDeviceID (pluginFor "igb_uio" ["c6xxvf"] 32) memFS sysfsOddIds "0000:01:00.0").1 =
        .ok "0x8086" ∧
      strings_HasPrefix "0x8086" "0x" = true ∧
      (getDeviceID (pluginFor "igb_uio" ["c6xxvf"] 32) memFS sysfsOddIds "0000:01:00.1").1 =
        .ok " 8086" ∧
      ¬ noLeadingSpace " 8086" := by
  refine ⟨by decide, by decide, by decide, ?_⟩
  intro h
  exact absurd (h ' ' rfl) (by decide)

/-- C7 (amended): when the identifier file can be read, getDeviceID returns its
content with the surrounding white space removed and then one leading "0x"
removed; the result has no trailing white space; when the trimmed content is
"0x" followed by `rest` the result is `rest`, and when it does not start with
"0x" the result is the trimmed content, without leading white space; for the
content "0x8086", with or without a newline, the result is "8086". When the
file cannot be read, getDeviceID returns an error. -/
theorem getDeviceID_spec (dp : devicePlugin) (fs : FileSystem σ) (s : σ) (pciAddr : String) :
    (∀ content, fs.ReadFile s (path_Join [dp.pciDeviceDir, pciAddr, "device"]) = .ok content →
      (getDeviceID dp fs s pciAddr).1 =
          .ok (strings_TrimPrefix (bytes_TrimSpace content) "0x") ∧
        noTrailingSpace (strings_TrimPrefix (bytes_TrimSpace content) "0x") ∧
        (∀ rest, bytes_TrimSpace content = "0x" ++ rest →
          strings_TrimPrefix (bytes_TrimSpace content) "0x" = rest) ∧
        (strings_HasPrefix (bytes_TrimSpace content) "0x" = false →
          strings_TrimPrefix (bytes_TrimSpace content) "0x" = bytes_TrimSpace content ∧
            noLeadingSpace (strings_TrimPrefix (bytes_TrimSpace content) "0x") ∧
            strings_HasPrefix (strings_TrimPrefix (bytes_TrimSpace content) "0x") "0x" = false) ∧
        (content = "0x8086" ∨ content = "0x8086\n" →
          (getDeviceID dp fs s pciAddr).1 = .ok "8086")) ∧
    (∀ err, fs.ReadFile s (path_Join [dp.pciDeviceDir, pciAddr, "device"]) = .error err →
      ∃ msg, (getDeviceID dp fs s pciAddr).1 = .error msg) := by
  constructor
  · intro content hread
    have hres : (getDeviceID dp fs s pciAddr).1 =
        .ok (strings_TrimPrefix (bytes_TrimSpace content) "0x") := by
      simp [getDeviceID, hread]
    refine ⟨hres, trimPrefix_noTrailing _ _ (trimSpace_noTrailing _), ?_, ?_, ?_⟩
    · intro rest hrest
      rw [hrest]
      exact trimPrefix_append _ _
    · intro hno
      have heq : strings_TrimPrefix (bytes_TrimSpace content) "0x" = bytes_TrimSpace content := by
        simp [strings_TrimPrefix, hno]
      rw [heq]
      exact ⟨rfl, trimSpace_noLeading _, hno⟩
    · intro hc
      rw [hres]
      rcases hc with hc | hc <;> subst hc <;> decide
  · intro err hread
    exact ⟨"Cannot obtain ID for the device " ++ pciAddr ++ ": " ++ err,
      by simp [getDeviceID, hread]⟩

/-- Witness of C7: the identifier file of 0000:01:00.2 holds "0x8086" and a
newline, and is resolved to "8086". -/
theorem getDeviceID_spec_witness :
    memFS.ReadFile sysfsOddIds
        (path_Join [(pluginFor "igb_uio" ["c6xxvf"] 32).pciDeviceDir, "0000:01:00.2", "device"]) =
        .ok "0x8086\n" ∧
      (getDeviceID (pluginFor "igb_uio" ["c6xxvf"] 32) memFS sysfsOddIds "0000:01:00.2").1 =
        .ok "8086" :=
  ⟨by decide,
    ((getDeviceID_spec (pluginFor "igb_uio" ["c6xxvf"] 32) memFS sysfsOddIds "0000:01:00.2").1
      "0x8086\n" (by decide)).2.2.2.2 (Or.inr rfl)⟩

/-! ## Startup validation (C9) -/

/-- C9 as stated fails: the configuration with target driver "igb_uio", source
driver "c6xxvf" and maximum device count 0 is accepted, and so is the count -5,
although neither count is positive. -/
theorem main_accepts_zero_devices :
    main "igb_uio" "c6xxvf" 0 = .ok (pluginFor "igb_uio" ["c6xxvf"] 0) ∧
      main "vfio-pci" "dh895xccvf,c6xxvf" (-5) =
        .ok (pluginFor "vfio-pci" ["dh895xccvf", "c6xxvf"] (-5)) ∧
      ¬ (0 < (0 : Int)) ∧ ¬ (0 < (-5 : Int)) := by
  decide

/-- C9 (amended): main accepts a configuration, whatever the maximum device
count, if and only if the target driver name is "igb_uio" or "vfio-pci" and
every comma-separated source driver name is one of "dh895xccvf", "c6xxvf",
"c3xxxvf", "d15xxvf", which is what isValidDpdkDeviceDriver and
isValidKerneDriver test; an accepted configuration gives the plugin built from
the flags, every other one ends with exit status 1. -/
theorem main_accepts_iff (dpdkDriver kernelVfDrivers : String) (maxNumDevices : Int) :
    ((∃ plugin, main dpdkDriver kernelVfDrivers maxNumDevices = .ok plugin) ↔
      (dpdkDriver = "igb_uio" ∨ dpdkDriver = "vfio-pci") ∧
        ∀ d ∈ strings_Split kernelVfDrivers ',',
          d = "dh895xccvf" ∨ d = "c6xxvf" ∨ d = "c3xxxvf" ∨ d = "d15xxvf") ∧
    ((dpdkDriver = "igb_uio" ∨ dpdkDriver = "vfio-pci") ↔
      isValidDpdkDeviceDriver dpdkDriver = true) ∧
    (∀ d, (d = "dh895xccvf" ∨ d = "c6xxvf" ∨ d = "c3xxxvf" ∨ d = "d15xxvf") ↔
      isValidKerneDriver d = true) ∧
    (∀ plugin, main dpdkDriver kernelVfDrivers maxNumDevices = .ok plugin →
      plugin = newDevicePlugin pciDriverDirectory pciDeviceDirectory maxNumDevices
        (strings_Split kernelVfDrivers ',') dpdkDriver) ∧
    (∀ code, main dpdkDriver kernelVfDrivers maxNumDevices = .error code → code = 1) := by
  have hd : (dpdkDriver = "igb_uio" ∨ dpdkDriver = "vfio-pci") =
      (isValidDpdkDeviceDriver dpdkDriver = true) := by
    simp [isValidDpdkDeviceDriver]
  have hk : ∀ d, (d = "dh895xccvf" ∨ d = "c6xxvf" ∨ d = "c3xxxvf" ∨ d = "d15xxvf") =
      (isValidKerneDriver d = true) := by
    intro d
    simp [isValidKerneDriver, or_assoc]
  refine ⟨?_, by rw [hd], fun d => by rw [hk d], ?_, ?_⟩
  · rw [hd]
    simp only [hk]
    unfold main
    by_cases h1 : isValidDpdkDeviceDriver dpdkDriver = true
    · by_cases h2 : (strings_Split kernelVfDrivers ',').all isValidKerneDriver = true
      · simp [h1, h2]
        simpa using h2
      · simp [h1, h2]
        simpa using h2
    · simp [h1]
  · intro plugin h
    unfold main at h
    by_cases h1 : isValidDpdkDeviceDriver dpdkDriver = true
    · by_cases h2 : (strings_Split kernelVfDrivers ',').all isValidKerneDriver = true
      · simp only [h1, h2, Bool.not_true, Bool.false_eq_true, if_false, if_true] at h
        cases h
        rfl
      · simp [h1, h2] at h
    · simp [h1] at h
  · intro code h
    unfold main at h
    by_cases h1 : isValidDpdkDeviceDriver dpdkDriver = true
    · by_cases h2 : (strings_Split kernelVfDrivers ',').all isValidKerneDriver = true
      · simp [h1, h2] at h
      · simp only [h1, h2, Bool.not_true, Bool.false_eq_true, if_false] at h
        cases h
        rfl
    · simp only [h1, Bool.not_false, if_true] at h
      cases h
      rfl

/-! ## Rebinding one device (C8) -/

/-- C8: bindDevice first writes "0000:"+id to the unbind control file of the
device; when that write fails it returns an error and makes no other call; else
it reads the identifier file, and when that fails it returns an error without
writing new_id; else it writes "8086 " followed by the resolved identifier to
the new_id file of the DPDK driver, and returns an error when that write fails,
with no further call (the unbind write stays); it returns nil exactly when the
two writes and the read succeed. -/
theorem bindDevice_steps (dp : devicePlugin) (fs : FileSystem σ) (s : σ) (id : String) :
    let addr := "0000:" ++ id
    let unbindPath := path_Join [dp.pciDeviceDir, addr, "driver/unbind"]
    let idPath := path_Join [dp.pciDeviceDir, addr, "device"]
    let newIdPath := path_Join [dp.pciDriverDir, dp.dpdkDriver, "new_id"]
    let w1 := fs.WriteFile s unbindPath addr
    let payload := fun content => "8086 " ++ strings_TrimPrefix (bytes_TrimSpace content) "0x"
    (∀ err, w1.1 = .error err →
      (∃ msg, (bindDevice dp fs s id).result = .error msg) ∧
        (bindDevice dp fs s id).trace = [Event.writeFile unbindPath addr] ∧
        (bindDevice dp fs s id).state = w1.2) ∧
    (w1.1 = .ok () → ∀ err, fs.ReadFile w1.2 idPath = .error err →
      (∃ msg, (bindDevice dp fs s id).result = .error msg) ∧
        (bindDevice dp fs s id).trace = [Event.writeFile unbindPath addr, Event.readFile idPath] ∧
        (bindDevice dp fs s id).state = w1.2) ∧
    (w1.1 = .ok () → ∀ content, fs.ReadFile w1.2 idPath = .ok content →
      (bindDevice dp fs s id).trace =
          [Event.writeFile unbindPath addr, Event.readFile idPath,
            Event.writeFile newIdPath (payload content)] ∧
        (bindDevice dp fs s id).state = (fs.WriteFile w1.2 newIdPath (payload content)).2 ∧
        ((fs.WriteFile w1.2 newIdPath (payload content)).1 = .ok () →
          (bindDevice dp fs s id).result = .ok ()) ∧
        (∀ err, (fs.WriteFile w1.2 newIdPath (payload content)).1 = .error err →
          ∃ msg, (bindDevice dp fs s id).result = .error msg)) ∧
    ((bindDevice dp fs s id).result = .ok () ↔
      w1.1 = .ok () ∧ ∃ content, fs.ReadFile w1.2 idPath = .ok content ∧
        (fs.WriteFile w1.2 newIdPath (payload content)).1 = .ok ()) := by
  dsimp only
  cases h1 : (fs.WriteFile s (path_Join [dp.pciDeviceDir, "0000:" ++ id, "driver/unbind"])
      ("0000:" ++ id)).1 with
  | error e1 =>
    simp [bindDevice, driverUnbindSuffix, h1]
  | ok u1 =>
    cases hr : fs.ReadFile (fs.WriteFile s
        (path_Join [dp.pciDeviceDir, "0000:" ++ id, "driver/unbind"]) ("0000:" ++ id)).2
        (path_Join [dp.pciDeviceDir, "0000:" ++ id, "device"]) with
    | error e2 =>
      simp [bindDevice, getDeviceID, driverUnbindSuffix, h1, hr]
    | ok content =>
      cases h2 : (fs.WriteFile (fs.WriteFile s
          (path_Join [dp.pciDeviceDir, "0000:" ++ id, "driver/unbind"]) ("0000:" ++ id)).2
          (path_Join [dp.pciDriverDir, dp.dpdkDriver, "new_id"])
          ("8086 " ++ strings_TrimPrefix (bytes_TrimSpace content) "0x")).1 with
      | error e3 =>
        simp [bindDevice, getDeviceID, driverUnbindSuffix, newIDSuffix, vendorPrefix, h1, hr, h2]
      | ok u2 =>
        simp [bindDevice, getDeviceID, driverUnbindSuffix, newIDSuffix, vendorPrefix, h1, hr, h2]

/-- Witness of C8: on a system where both control files accept the write and
the identifier file holds "0x37c9", bindDevice of 01:00.0 returns nil after the
unbind write, the identifier read and the new_id write of "8086 37c9". -/
theorem bindDevice_steps_witness :
    (bindDevice (pluginFor "igb_uio" ["c6xxvf"] 32) memFS sysfsOneVf "01:00.0").result = .ok () ∧
      (bindDevice (pluginFor "igb_uio" ["c6xxvf"] 32) memFS sysfsOneVf "01:00.0").trace =
        [Event.writeFile "/sys/bus/pci/devices/0000:01:00.0/driver/unbind" "0000:01:00.0",
          Event.readFile "/sys/bus/pci/devices/0000:01:00.0/device",
          Event.writeFile "/sys/bus/pci/drivers/igb_uio/new_id" "8086 37c9"] :=
  ⟨((bindDevice_steps (pluginFor "igb_uio" ["c6xxvf"] 32) memFS sysfsOneVf "01:00.0").2.2.1
      (by decide) "0x37c9\n" (by decide)).2.2.1 (by decide),
    ((bindDevice_steps (pluginFor "igb_uio" ["c6xxvf"] 32) memFS sysfsOneVf "01:00.0").2.2.1
      (by decide) "0x37c9\n" (by decide)).1⟩

/-! ## Device nodes and mount paths (C5) -/

/-- C5: with the DPDK driver "igb_uio", a successful getDpdkDeviceNames returns
exactly one device node, "/dev" joined with the first entry of the uio directory
of the device, and a successful getDpdkMountPaths exactly one mount path,
"/sys/class/uio" joined with that entry and "/device"; for an entry that is a
file name these are "/dev/<name>" and "/sys/class/uio/<name>/device". With the
DPDK driver "vfio-pci", a successful getDpdkDeviceNames returns exactly two
nodes, "/dev/vfio" joined with the iommu_group link target without the prefix
"/sys/kernel/iommu_groups", and "/dev/vfio/vfio", and a successful
getDpdkMountPaths returns no mount path; for the link target
"/sys/kernel/iommu_groups/7" the nodes are "/dev/vfio/7" and "/dev/vfio/vfio". -/
theorem dpdk_nodes_and_mounts (dp : devicePlugin) (fs : FileSystem σ) (s : σ) (id : String) :
    (dp.dpdkDriver = "igb_uio" →
      (∀ nodes, (getDpdkDeviceNames dp fs s id).1 = .ok nodes →
        ∃ name rest,
          fs.ReadDir s (path_Join [dp.pciDeviceDir, "0000:" ++ id, "uio"]) = .ok (name :: rest) ∧
            nodes = [path_Join ["/dev", name]] ∧
            (validEntryName name → nodes = ["/dev/" ++ name])) ∧
      (∀ mounts, (getDpdkMountPaths dp fs s id).1 = .ok mounts →
        ∃ name rest,
          fs.ReadDir s (path_Join [dp.pciDeviceDir, "0000:" ++ id, "uio"]) = .ok (name :: rest) ∧
            mounts = [path_Join ["/sys/class/uio", name, "/device"]] ∧
            (validEntryName name → mounts = ["/sys/class/uio/" ++ name ++ "/device"]))) ∧
    (dp.dpdkDriver = "vfio-pci" →
      (∀ nodes, (getDpdkDeviceNames dp fs s id).1 = .ok nodes →
        ∃ target,
          fs.EvalSymlinks s (path_Join [dp.pciDeviceDir, "0000:" ++ id, "iommu_group"]) =
              .ok target ∧
            nodes = [path_Join ["/dev/vfio",
              strings_TrimPrefix target "/sys/kernel/iommu_groups"], "/dev/vfio/vfio"]) ∧
      (∀ mounts, (getDpdkMountPaths dp fs s id).1 = .ok mounts → mounts = []) ∧
      (fs.EvalSymlinks s (path_Join [dp.pciDeviceDir, "0000:" ++ id, "iommu_group"]) =
          .ok "/sys/kernel/iommu_groups/7" →
        (getDpdkDeviceNames dp fs s id).1 = .ok ["/dev/vfio/7", "/dev/vfio/vfio"] ∧
          (getDpdkMountPaths dp fs s id).1 = .ok [])) := by
  have hv : path_Join [vfioDevicePath, "/vfio"] = "/dev/vfio/vfio" := by decide
  have h7 : path_Join [vfioDevicePath,
      strings_TrimPrefix "/sys/kernel/iommu_groups/7" sysfsIommuGroupPrefix] = "/dev/vfio/7" := by
    decide
  have hne : ¬ ("vfio-pci" = "igb_uio") := by decide
  constructor
  · intro hd
    constructor
    · intro nodes h
      cases hr : fs.ReadDir s (path_Join [dp.pciDeviceDir, "0000:" ++ id, "uio"]) with
      | error e => simp [getDpdkDeviceNames, getDpdkDevice, hd, uioSuffix, hr] at h
      | ok files =>
        cases files with
        | nil => simp [getDpdkDeviceNames, getDpdkDevice, hd, uioSuffix, hr] at h
        | cons name rest =>
          simp [getDpdkDeviceNames, getDpdkDevice, hd, uioSuffix, hr] at h
          refine ⟨name, rest, rfl, h.symm, fun hn => ?_⟩
          rw [← h, join_uioDevicePath name hn]
    · intro mounts h
      cases hr : fs.ReadDir s (path_Join [dp.pciDeviceDir, "0000:" ++ id, "uio"]) with
      | error e => simp [getDpdkMountPaths, getDpdkDevice, hd, uioSuffix, hr] at h
      | ok files =>
        cases files with
        | nil => simp [getDpdkMountPaths, getDpdkDevice, hd, uioSuffix, hr] at h
        | cons name rest =>
          simp [getDpdkMountPaths, getDpdkDevice, hd, uioSuffix, hr] at h
          refine ⟨name, rest, rfl, h.symm, fun hn => ?_⟩
          rw [← h, join_uioMountPath name hn]
  · intro hd
    refine ⟨?_, ?_, ?_⟩
    · intro nodes h
      cases hr : fs.EvalSymlinks s (path_Join [dp.pciDeviceDir, "0000:" ++ id, "iommu_group"]) with
      | error e => simp [getDpdkDeviceNames, getDpdkDevice, hd, hne, iommuGroupSuffix, hr] at h
      | ok target =>
        simp [getDpdkDeviceNames, getDpdkDevice, hd, hne, iommuGroupSuffix, hr, hv] at h
        exact ⟨target, rfl, h.symm⟩
    · intro mounts h
      cases hr : fs.EvalSymlinks s (path_Join [dp.pciDeviceDir, "0000:" ++ id, "iommu_group"]) with
      | error e => simp [getDpdkMountPaths, getDpdkDevice, hd, hne, iommuGroupSuffix, hr] at h
      | ok target =>
        simp [getDpdkMountPaths, getDpdkDevice, hd, hne, iommuGroupSuffix, hr] at h
        exact h
    · intro hr
      constructor
      · simp [getDpdkDeviceNames, getDpdkDevice, hd, hne, iommuGroupSuffix, hr, hv, h7]
      · simp [getDpdkMountPaths, getDpdkDevice, hd, hne, iommuGroupSuffix, hr]

/-- Witness of C5: for the device 01:00.0, whose uio directory lists "uio0" and
whose iommu_group link resolves to "/sys/kernel/iommu_groups/7", the resolution
succeeds and gives these nodes and mounts under either DPDK driver. -/
theorem dpdk_nodes_and_mounts_witness :
    ((getDpdkDeviceNames (pluginFor "igb_uio" ["c6xxvf"] 32) memFS sysfsOneVf "01:00.0").1 =
        .ok ["/dev/uio0"] ∧
      (getDpdkMountPaths (pluginFor "igb_uio" ["c6xxvf"] 32) memFS sysfsOneVf "01:00.0").1 =
        .ok ["/sys/class/uio/uio0/device"]) ∧
    ((getDpdkDeviceNames (pluginFor "vfio-pci" ["c6xxvf"] 32) memFS sysfsOneVf "01:00.0").1 =
        .ok ["/dev/vfio/7", "/dev/vfio/vfio"] ∧
      (getDpdkMountPaths (pluginFor "vfio-pci" ["c6xxvf"] 32) memFS sysfsOneVf "01:00.0").1 =
        .ok []) :=
  ⟨⟨by decide, by decide⟩,
    (dpdk_nodes_and_mounts (pluginFor "vfio-pci" ["c6xxvf"] 32) memFS sysfsOneVf "01:00.0").2
      (by decide) |>.2.2 (by decide)⟩

/-! ## The entries a scan processes (C1, C6, C4) -/

/-- C1: in a scan that returns without error, for every configured driver `d`
(the source drivers, then the DPDK driver), the directory of `d` is read when
its turn comes, and the entries processed in that turn are exactly the first
min(maxDevices, k) of the k entries whose name starts with "0000:", in listing
order: these are the addresses passed to AddDevice, and, when `d` is not the
DPDK driver, each is rebound before (unbind write of the entry, new_id write),
and nothing else is written. Entries without the prefix are neither processed
nor counted. -/
theorem scan_processes_first_entries (dp : devicePlugin) (fs : FileSystem σ) (s : σ)
    (tf : DeviceTree) (pre : List String) (d : String) (post : List String)
    (hok : (scan dp fs s).result = .ok tf)
    (hsplit : dp.kernelVfDrivers ++ [dp.dpdkDriver] = pre ++ d :: post) :
    (∃ t1, (scanDrivers dp fs pre s NewDeviceTree).result = .ok t1) ∧
    (∃ files, fs.ReadDir (scanDrivers dp fs pre s NewDeviceTree).state (driverDir dp d) =
      .ok files) ∧
    ∀ t1 files, (scanDrivers dp fs pre s NewDeviceTree).result = .ok t1 →
      fs.ReadDir (scanDrivers dp fs pre s NewDeviceTree).state (driverDir dp d) = .ok files →
      (∃ t2, (scanDriver dp fs d (scanDrivers dp fs pre s NewDeviceTree).state t1).result =
          .ok t2 ∧
        (scan dp fs s).trace = (scanDrivers dp fs pre s NewDeviceTree).trace ++
          (scanDriver dp fs d (scanDrivers dp fs pre s NewDeviceTree).state t1).trace ++
          (scanDrivers dp fs post
            (scanDriver dp fs d (scanDrivers dp fs pre s NewDeviceTree).state t1).state
            t2).trace) ∧
      (addDeviceCalls
          (scanDriver dp fs d (scanDrivers dp fs pre s NewDeviceTree).state t1).trace).map
          (fun c => (c.1, c.2.1)) =
        (acceptedEntries dp files).map (fun e => ("generic", strings_TrimPrefix e "0000:")) ∧
      (d ≠ dp.dpdkDriver → ∃ ids : List String,
        ids.length = (acceptedEntries dp files).length ∧
        writeCalls (scanDriver dp fs d (scanDrivers dp fs pre s NewDeviceTree).state t1).trace =
          (((acceptedEntries dp files).zip ids).map
            (fun p => rebindWrites dp p.1 p.2)).flatten) ∧
      (d = dp.dpdkDriver →
        writeCalls (scanDriver dp fs d (scanDrivers dp fs pre s NewDeviceTree).state t1).trace =
          []) := by
  unfold scan at hok ⊢
  rw [hsplit] at hok ⊢
  obtain ⟨t1, t2, h1, h2, h3, h4⟩ := scanDrivers_split_ok dp fs pre d post s _ tf hok
  obtain ⟨files, f1, f2, f3, f4, f5⟩ := scanDriver_ok dp fs d _ t1 t2 h2
  refine ⟨⟨t1, h1⟩, ⟨files, f1⟩, ?_⟩
  intro t1a filesa h1a f1a
  rw [h1] at h1a
  cases h1a
  rw [f1] at f1a
  cases f1a
  refine ⟨⟨t2, h2, h4⟩, ?_, f3, f4⟩
  have := congrArg (List.map (fun c : String × String × String × List (String × String) =>
    (c.1, c.2.1))) f2
  simp only [List.map_map] at this
  have e1 : ((fun c : String × String × String × List (String × String) => (c.1, c.2.1)) ∘
      callSummary) = (fun c : String × String × DeviceInfo => (c.1, c.2.1)) := by
    funext c
    rfl
  have e2 : ((acceptedEntries dp files).enumFrom 1).map
      ((fun c : String × String × String × List (String × String) => (c.1, c.2.1)) ∘
        expectedCall) =
      (acceptedEntries dp files).map (fun e => ("generic", strings_TrimPrefix e "0000:")) := by
    rw [← List.enumFrom_map_snd 1 (acceptedEntries dp files), List.map_map]
    simp
    intro a b _
    exact ⟨rfl, rfl⟩
  rw [e1, e2] at this
  exact this

/-- Witness of C1: in the scenario (four devices and "somejunk" under c6xxvf,
at most two devices) the scan succeeds, and the turn of c6xxvf passes the first
two addresses to AddDevice and rebinds these two devices. -/
theorem scan_processes_first_entries_witness :
    (scan pluginScenario memFS sysfsScenario).result = .ok inventoryScenario ∧
      pluginScenario.kernelVfDrivers ++ [pluginScenario.dpdkDriver] =
        [] ++ "c6xxvf" :: ["igb_uio"] ∧
      (addDeviceCalls (scanDriver pluginScenario memFS "c6xxvf" sysfsScenario
          NewDeviceTree).trace).map (fun c => (c.1, c.2.1)) =
        [("generic", "01:00.0"), ("generic", "01:00.1")] ∧
      (writeCalls (scanDriver pluginScenario memFS "c6xxvf" sysfsScenario
          NewDeviceTree).trace).map Prod.snd =
        ["0000:01:00.0", "8086 37c9", "0000:01:00.1", "8086 37c9"] :=
  ⟨by decide, by decide,
    ((scan_processes_first_entries pluginScenario memFS sysfsScenario inventoryScenario []
      "c6xxvf" ["igb_uio"] (by decide) (by decide)).2.2 NewDeviceTree
      ["0000:01:00.0", "0000:01:00.1", "0000:01:00.2", "0000:01:00.3", "somejunk"]
      (by decide) (by decide)).2.1,
    by decide⟩

/-- C6: in a scan that returns without error, in the turn of every configured
driver the i-th accepted entry e_i of its directory (i from 1, entries without
the prefix "0000:" not counted, numbering started again for each driver) gives
one AddDevice call under class "generic", keyed by e_i without its prefix
"0000:", with a descriptor whose Envs has the single key "qat" followed by the
decimal numeral of i, mapped to the entry name e_i itself (prefix included); the
inventory after the turn is the one these calls build, and the calls of the
turn are a segment of the trace of the scan. -/
theorem scan_env_numbering (dp : devicePlugin) (fs : FileSystem σ) (s : σ)
    (tf : DeviceTree) (pre : List String) (d : String) (post : List String)
    (hok : (scan dp fs s).result = .ok tf)
    (hsplit : dp.kernelVfDrivers ++ [dp.dpdkDriver] = pre ++ d :: post) :
    (∃ t1, (scanDrivers dp fs pre s NewDeviceTree).result = .ok t1) ∧
    (∃ files, fs.ReadDir (scanDrivers dp fs pre s NewDeviceTree).state (driverDir dp d) =
      .ok files) ∧
    ∀ t1 files, (scanDrivers dp fs pre s NewDeviceTree).result = .ok t1 →
      fs.ReadDir (scanDrivers dp fs pre s NewDeviceTree).state (driverDir dp d) = .ok files →
      (addDeviceCalls
          (scanDriver dp fs d (scanDrivers dp fs pre s NewDeviceTree).state t1).trace).map
          (fun c => (c.1, c.2.1, c.2.2.Envs)) =
        ((acceptedEntries dp files).enumFrom 1).map
          (fun ie => ("generic", strings_TrimPrefix ie.2 "0000:",
            [("qat" ++ fmt_d ie.1, ie.2)])) ∧
      (∀ e ∈ acceptedEntries dp files, "0000:" ++ strings_TrimPrefix e "0000:" = e) ∧
      (scanDriver dp fs d (scanDrivers dp fs pre s NewDeviceTree).state t1).result =
        .ok (applyCalls t1 (addDeviceCalls
          (scanDriver dp fs d (scanDrivers dp fs pre s NewDeviceTree).state t1).trace)) ∧
      (scan dp fs s).trace = (scanDrivers dp fs pre s NewDeviceTree).trace ++
        (scanDriver dp fs d (scanDrivers dp fs pre s NewDeviceTree).state t1).trace ++
        (scanDrivers dp fs post
          (scanDriver dp fs d (scanDrivers dp fs pre s NewDeviceTree).state t1).state
          (applyCalls t1 (addDeviceCalls
            (scanDriver dp fs d (scanDrivers dp fs pre s NewDeviceTree).state t1).trace))).trace := by
  unfold scan at hok ⊢
  rw [hsplit] at hok ⊢
  obtain ⟨t1, t2, h1, h2, h3, h4⟩ := scanDrivers_split_ok dp fs pre d post s _ tf hok
  obtain ⟨files, f1, f2, f3, f4, f5⟩ := scanDriver_ok dp fs d _ t1 t2 h2
  refine ⟨⟨t1, h1⟩, ⟨files, f1⟩, ?_⟩
  intro t1a filesa h1a f1a
  rw [h1] at h1a
  cases h1a
  rw [f1] at f1a
  cases f1a
  refine ⟨?_, ?_, by rw [h2, f5], by rw [h4, f5]⟩
  · have := congrArg (List.map (fun c : String × String × String × List (String × String) =>
      (c.1, c.2.1, c.2.2.2))) f2
    simp only [List.map_map] at this
    exact this
  · intro e he
    apply hasPrefix_append_trimPrefix
    have hm : e ∈ busEntries files := by
      unfold acceptedEntries at he
      exact List.mem_of_mem_take he
    unfold busEntries at hm
    simpa using (List.mem_filter.mp hm).2

/-- Witness of C6: in the scenario the turn of c6xxvf stores 01:00.0 with the
environment qat1 and 01:00.1 with the environment qat2. -/
theorem scan_env_numbering_witness :
    (scan pluginScenario memFS sysfsScenario).result = .ok inventoryScenario ∧
      pluginScenario.kernelVfDrivers ++ [pluginScenario.dpdkDriver] =
        [] ++ "c6xxvf" :: ["igb_uio"] ∧
      (addDeviceCalls (scanDriver pluginScenario memFS "c6xxvf" sysfsScenario
          NewDeviceTree).trace).map (fun c => (c.1, c.2.1, c.2.2.Envs)) =
        [("generic", "01:00.0", [("qat1", "0000:01:00.0")]),
          ("generic", "01:00.1", [("qat2", "0000:01:00.1")])] :=
  ⟨by decide, by decide,
    ((scan_env_numbering pluginScenario memFS sysfsScenario inventoryScenario []
      "c6xxvf" ["igb_uio"] (by decide) (by decide)).2.2 NewDeviceTree
      ["0000:01:00.0", "0000:01:00.1", "0000:01:00.2", "0000:01:00.3", "somejunk"]
      (by decide) (by decide)).1⟩

/-- C4 as stated fails: in the scenario the scan succeeds, the entry
"0000:01:00.2" of the source driver c6xxvf starts with "0000:", and the
inventory returned holds no device 01:00.2. -/
theorem scan_drops_entries_beyond_cap :
    (scan pluginScenario memFS sysfsScenario).result = .ok inventoryScenario ∧
      "c6xxvf" ∈ pluginScenario.kernelVfDrivers ∧
      memFS.ReadDir sysfsScenario (driverDir pluginScenario "c6xxvf") =
        .ok ["0000:01:00.0", "0000:01:00.1", "0000:01:00.2", "0000:01:00.3", "somejunk"] ∧
      strings_HasPrefix "0000:01:00.2" "0000:" = true ∧
      inventoryScenario.device "generic" (strings_TrimPrefix "0000:01:00.2" "0000:") = none := by
  decide

/-- C4 (amended): if scan returns without error then for every source driver
and every entry among the first maxDevices entries of its directory whose name
starts with "0000:" (the directory as listed when the turn of the driver
comes), the returned inventory holds, under class "generic" and the address of
the entry, a descriptor whose State is Healthy; and the AddDevice calls of the
turn of that driver are exactly those for these entries, in listing order. -/
theorem scan_keeps_accepted_entries (dp : devicePlugin) (fs : FileSystem σ) (s : σ)
    (tf : DeviceTree) (pre : List String) (d : String) (post : List String)
    (hok : (scan dp fs s).result = .ok tf)
    (hsplit : dp.kernelVfDrivers = pre ++ d :: post) :
    (∃ files, fs.ReadDir (scanDrivers dp fs pre s NewDeviceTree).state (driverDir dp d) =
      .ok files) ∧
    (∃ t1, (scanDrivers dp fs pre s NewDeviceTree).result = .ok t1) ∧
    ∀ files,
      fs.ReadDir (scanDrivers dp fs pre s NewDeviceTree).state (driverDir dp d) = .ok files →
      (∀ e ∈ acceptedEntries dp files,
        ∃ info, tf.device "generic" (strings_TrimPrefix e "0000:") = some info ∧
          info.State = pluginapi_Healthy) ∧
      (∀ t1, (scanDrivers dp fs pre s NewDeviceTree).result = .ok t1 →
        (addDeviceCalls
            (scanDriver dp fs d (scanDrivers dp fs pre s NewDeviceTree).state t1).trace).map
            (fun c => (c.1, c.2.1)) =
          (acceptedEntries dp files).map
            (fun e => ("generic", strings_TrimPrefix e "0000:"))) := by
  unfold scan at hok
  rw [hsplit, List.append_assoc, List.cons_append] at hok
  obtain ⟨t1, t2, h1, h2, h3, h4⟩ :=
    scanDrivers_split_ok dp fs pre d (post ++ [dp.dpdkDriver]) s _ tf hok
  obtain ⟨files, f1, f2, -, -, -⟩ := scanDriver_ok dp fs d _ t1 t2 h2
  refine ⟨⟨files, f1⟩, ⟨t1, h1⟩, ?_⟩
  intro filesa f1a
  rw [f1] at f1a
  cases f1a
  constructor
  · intro e he
    obtain ⟨g1, g2⟩ := scanDrivers_ok_calls dp fs _ s _ tf hok
    obtain ⟨c, hc, hk⟩ := summary_has_entry _ 1 _ f2 e he
    have : healthyAt tf (strings_TrimPrefix e "0000:") := by
      rw [g1]
      apply applyCalls_healthy _ _ _ g2
      right
      refine ⟨c, ?_, hk⟩
      rw [h4]
      simp only [addDeviceCalls_append, List.mem_append]
      exact Or.inl (Or.inr hc)
    exact this
  · intro t1a h1a
    rw [h1] at h1a
    cases h1a
    have := congrArg (List.map (fun c : String × String × String × List (String × String) =>
      (c.1, c.2.1))) f2
    simp only [List.map_map] at this
    have e1 : ((fun c : String × String × String × List (String × String) => (c.1, c.2.1)) ∘
        callSummary) = (fun c : String × String × DeviceInfo => (c.1, c.2.1)) := by
      funext c
      rfl
    have e2 : ((acceptedEntries dp files).enumFrom 1).map
        ((fun c : String × String × String × List (String × String) => (c.1, c.2.1)) ∘
          expectedCall) =
        (acceptedEntries dp files).map (fun e => ("generic", strings_TrimPrefix e "0000:")) := by
      rw [← List.enumFrom_map_snd 1 (acceptedEntries dp files), List.map_map]
      simp
      intro a b _
      exact ⟨rfl, rfl⟩
    rw [e1, e2] at this
    exact this

/-- Witness of C4: in the scenario the entry "0000:01:00.1", the second of the
source driver c6xxvf, is in the inventory with a healthy descriptor, and the
turn of c6xxvf calls AddDevice for 01:00.0 and 01:00.1 only. -/
theorem scan_keeps_accepted_entries_witness :
    (scan pluginScenario memFS sysfsScenario).result = .ok inventoryScenario ∧
      pluginScenario.kernelVfDrivers = [] ++ "c6xxvf" :: [] ∧
      (∃ info, inventoryScenario.device "generic" "01:00.1" = some info ∧
        info.State = "Healthy") ∧
      (addDeviceCalls (scanDriver pluginScenario memFS "c6xxvf" sysfsScenario
          NewDeviceTree).trace).map (fun c => (c.1, c.2.1)) =
        [("generic", "01:00.0"), ("generic", "01:00.1")] :=
  ⟨by decide, by decide,
    ((scan_keeps_accepted_entries pluginScenario memFS sysfsScenario inventoryScenario []
      "c6xxvf" [] (by decide) (by decide)).2.2
      ["0000:01:00.0", "0000:01:00.1", "0000:01:00.2", "0000:01:00.3", "somejunk"]
      (by decide)).1 "0000:01:00.1" (by decide),
    ((scan_keeps_accepted_entries pluginScenario memFS sysfsScenario inventoryScenario []
      "c6xxvf" [] (by decide) (by decide)).2.2
      ["0000:01:00.0", "0000:01:00.1", "0000:01:00.2", "0000:01:00.3", "somejunk"]
      (by decide)).2 NewDeviceTree (by decide)⟩

/-! ## Writes of a scan (C2), failed cycles (C3), the size of the inventory (C10) -/

/-- C2: every write of a scan is made in the turn of a source driver whose name
differs from the DPDK driver, for an accepted entry of the directory of that
driver as listed in that turn, and is the unbind write of that entry or a new_id
write; the turn of the DPDK driver writes nothing and leaves the filesystem as
it is; and when no directory of a source driver other than the DPDK driver
lists an entry starting with "0000:", the scan writes nothing at all. -/
theorem scan_rebinds_only_source_entries (dp : devicePlugin) (fs : FileSystem σ) (s : σ) :
    (∀ w ∈ writeCalls (scan dp fs s).trace,
      ∃ pre d post t1 files file,
        dp.kernelVfDrivers ++ [dp.dpdkDriver] = pre ++ d :: post ∧
        d ≠ dp.dpdkDriver ∧ d ∈ dp.kernelVfDrivers ∧
        (scanDrivers dp fs pre s NewDeviceTree).result = .ok t1 ∧
        fs.ReadDir (scanDrivers dp fs pre s NewDeviceTree).state (driverDir dp d) = .ok files ∧
        file ∈ files ∧ strings_HasPrefix file "0000:" = true ∧ file ∈ acceptedEntries dp files ∧
        (w = (unbindPath dp file, file) ∨ ∃ devID, w = (newIdPath dp, "8086 " ++ devID))) ∧
    (∀ (s1 : σ) (t : DeviceTree),
      writeCalls (scanDriver dp fs dp.dpdkDriver s1 t).trace = [] ∧
        (scanDriver dp fs dp.dpdkDriver s1 t).state = s1) ∧
    ((∀ d ∈ dp.kernelVfDrivers, d ≠ dp.dpdkDriver →
        ∀ files, fs.ReadDir s (driverDir dp d) = .ok files →
          ∀ f ∈ files, strings_HasPrefix f "0000:" = false) →
      writeCalls (scan dp fs s).trace = []) := by
  refine ⟨?_, ?_, ?_⟩
  · intro w hw
    obtain ⟨pre, d, post, t1, hsplit, hpre, hw1⟩ :=
      (scanDrivers_any dp fs (fun _ => True) (fun _ _ _ _ => trivial) _ s NewDeviceTree).2.2 w hw
    obtain ⟨hd, files, hf, file, hfile, hw2⟩ :=
      (scanDriver_any dp fs d (fun _ => True) (fun _ _ _ _ => trivial) _ t1).2.2.2 w hw1
    have hmem : file ∈ busEntries files := by
      unfold acceptedEntries at hfile
      exact List.mem_of_mem_take hfile
    unfold busEntries at hmem
    obtain ⟨m1, m2⟩ := List.mem_filter.mp hmem
    have hdk : d ∈ dp.kernelVfDrivers := by
      have : d ∈ dp.kernelVfDrivers ++ [dp.dpdkDriver] := by
        rw [hsplit]
        simp
      rcases List.mem_append.mp this with h | h
      · exact h
      · exact absurd (List.mem_singleton.mp h) hd
    exact ⟨pre, d, post, t1, files, file, hsplit, hd, hdk, hpre, hf, m1, by simpa using m2,
      hfile, hw2⟩
  · intro s1 t
    exact (scanDriver_any dp fs dp.dpdkDriver (fun _ => True) (fun _ _ _ _ => trivial)
      s1 t).2.2.1 rfl
  · intro h
    apply (scanDrivers_no_entries dp fs s _ _ NewDeviceTree).1
    intro d hd hne files hf
    have hdk : d ∈ dp.kernelVfDrivers := by
      rcases List.mem_append.mp hd with h1 | h1
      · exact h1
      · exact absurd (List.mem_singleton.mp h1) hne
    have := h d hdk hne files hf
    unfold busEntries
    rw [List.filter_eq_nil_iff]
    intro f hfm
    simp [this f hfm]

/-- Witness of C2: once all devices are under the DPDK driver, the source
driver lists no entry starting with "0000:" and the scan writes nothing. -/
theorem scan_rebinds_only_source_entries_witness :
    (∀ d ∈ (pluginFor "igb_uio" ["c6xxvf"] 32).kernelVfDrivers,
        d ≠ (pluginFor "igb_uio" ["c6xxvf"] 32).dpdkDriver →
        ∀ files, memFS.ReadDir sysfsMigrated
            (driverDir (pluginFor "igb_uio" ["c6xxvf"] 32) d) = .ok files →
          ∀ f ∈ files, strings_HasPrefix f "0000:" = false) ∧
      writeCalls (scan (pluginFor "igb_uio" ["c6xxvf"] 32) memFS sysfsMigrated).trace = [] := by
  have h : ∀ d ∈ (pluginFor "igb_uio" ["c6xxvf"] 32).kernelVfDrivers,
      d ≠ (pluginFor "igb_uio" ["c6xxvf"] 32).dpdkDriver →
      ∀ files, memFS.ReadDir sysfsMigrated
          (driverDir (pluginFor "igb_uio" ["c6xxvf"] 32) d) = .ok files →
        ∀ f ∈ files, strings_HasPrefix f "0000:" = false := by
    intro d hd _ files hf f hfm
    have hd1 : d = "c6xxvf" := by simpa [pluginFor, newDevicePlugin] using hd
    subst hd1
    have hl : memFS.ReadDir sysfsMigrated (driverDir (pluginFor "igb_uio" ["c6xxvf"] 32)
        "c6xxvf") = .ok ["bind", "new_id", "unbind"] := by decide
    rw [hl] at hf
    cases hf
    revert f
    decide
  exact ⟨h,
    (scan_rebinds_only_source_entries (pluginFor "igb_uio" ["c6xxvf"] 32) memFS
      sysfsMigrated).2.2 h⟩

/-- C3 as stated fails: with the source drivers c6xxvf and c3xxxvf, the
directory of c3xxxvf missing and one device under c6xxvf, the scan returns an
error, yet it has rebound that device before (unbind write and new_id write). -/
theorem scan_rebinds_before_unreadable_driver :
    "c3xxxvf" ∈ (pluginFor "igb_uio" ["c6xxvf", "c3xxxvf"] 32).kernelVfDrivers ∧
      memFS.ReadDir sysfsOneVf (driverDir (pluginFor "igb_uio" ["c6xxvf", "c3xxxvf"] 32)
        "c3xxxvf") = .error "open /sys/bus/pci/drivers/c3xxxvf: no such file or directory" ∧
      (scan (pluginFor "igb_uio" ["c6xxvf", "c3xxxvf"] 32) memFS sysfsOneVf).result =
        .error ("Can\x27t read sysfs for driver c3xxxvf: " ++
          "open /sys/bus/pci/drivers/c3xxxvf: no such file or directory") ∧
      writeCalls (scan (pluginFor "igb_uio" ["c6xxvf", "c3xxxvf"] 32) memFS sysfsOneVf).trace =
        [("/sys/bus/pci/devices/0000:01:00.0/driver/unbind", "0000:01:00.0"),
          ("/sys/bus/pci/drivers/igb_uio/new_id", "8086 37c9")] := by
  decide

/-- C3 (amended): when the directory of a configured driver `d` (a source
driver or the DPDK driver) cannot be read, and no write makes it readable, scan
returns an error with a nil inventory and Scan returns that error without
calling Notify in that cycle; nothing is written once the turn of `d` has come:
the writes of the cycle are those made in the turns of the drivers before `d`,
and there is none when `d` is the first driver. -/
theorem scan_unreadable_driver (dp : devicePlugin) (fs : FileSystem σ) (s : σ)
    (pre : List String) (d : String) (post : List String)
    (hsplit : dp.kernelVfDrivers ++ [dp.dpdkDriver] = pre ++ d :: post)
    (hunread : ∃ e, fs.ReadDir s (driverDir dp d) = .error e)
    (hpers : ∀ s1 p data, (∃ e, fs.ReadDir s1 (driverDir dp d) = .error e) →
      ∃ e, fs.ReadDir (fs.WriteFile s1 p data).2 (driverDir dp d) = .error e) :
    (∃ err, (scan dp fs s).result = .error err) ∧
    (∀ cycles, ∃ err,
      Scan dp fs (cycles + 1) s = (some err, (scan dp fs s).state, (scan dp fs s).trace)) ∧
    notifyCalls (scan dp fs s).trace = [] ∧
    ((scan dp fs s).trace = (scanDrivers dp fs pre s NewDeviceTree).trace ∨
      (scan dp fs s).trace =
        (scanDrivers dp fs pre s NewDeviceTree).trace ++ [Event.readDir (driverDir dp d)]) ∧
    writeCalls (scan dp fs s).trace = writeCalls (scanDrivers dp fs pre s NewDeviceTree).trace ∧
    (pre = [] → writeCalls (scan dp fs s).trace = []) := by
  have hnotify : notifyCalls (scan dp fs s).trace = [] :=
    (scanDrivers_any dp fs (fun _ => True) (fun _ _ _ _ => trivial) _ s NewDeviceTree).1
  have hshape : (∃ err, (scan dp fs s).result = .error err) ∧
      ((scan dp fs s).trace = (scanDrivers dp fs pre s NewDeviceTree).trace ∨
        (scan dp fs s).trace =
          (scanDrivers dp fs pre s NewDeviceTree).trace ++ [Event.readDir (driverDir dp d)]) := by
    unfold scan
    rw [hsplit]
    obtain ⟨a1, a2⟩ := scanDrivers_append dp fs pre (d :: post) s NewDeviceTree
    cases hpre : (scanDrivers dp fs pre s NewDeviceTree).result with
    | error e =>
      rw [a1 ⟨e, hpre⟩]
      exact ⟨⟨e, hpre⟩, Or.inl rfl⟩
    | ok t1 =>
      rw [a2 t1 hpre]
      obtain ⟨e, he⟩ := (scanDrivers_any dp fs
        (fun s1 => ∃ e, fs.ReadDir s1 (driverDir dp d) = .error e) hpers pre s
        NewDeviceTree).2.1 hunread
      have hv := scanDriver_unreadable dp fs d (scanDrivers dp fs pre s NewDeviceTree).state t1 e he
      have hr : (scanDriver dp fs d (scanDrivers dp fs pre s NewDeviceTree).state t1).result =
          .error ("Can\x27t read sysfs for driver " ++ d ++ ": " ++ e) := by rw [hv]
      rw [scanDrivers_cons_error dp fs d post _ t1 _ hr, hv]
      exact ⟨⟨_, rfl⟩, Or.inr rfl⟩
  obtain ⟨⟨err, herr⟩, htrace⟩ := hshape
  have hwrites : writeCalls (scan dp fs s).trace =
      writeCalls (scanDrivers dp fs pre s NewDeviceTree).trace := by
    rcases htrace with h | h
    · rw [h]
    · rw [h, writeCalls_append]
      simp [writeCalls]
  refine ⟨⟨err, herr⟩, ?_, hnotify, htrace, hwrites, ?_⟩
  · intro cycles
    refine ⟨"Device scan failed: " ++ err, ?_⟩
    simp [Scan, herr]
  · intro hnil
    rw [hwrites, hnil]
    simp [scanDrivers, writeCalls]

theorem memFS_ReadDir_write (s : MemFS) (p data q : String) :
    memFS.ReadDir (memFS.WriteFile s p data).2 q = memFS.ReadDir s q := by
  have h : (memFS.WriteFile s p data).2.dirs = s.dirs := by
    simp only [memFS]
    split <;> rfl
  simp only [memFS] at h ⊢
  rw [h]

/-- Witness of C3: with the directory of c3xxxvf missing (writes of the
in-memory filesystem create no directory), the scan fails, Scan returns the
error without a Notify call, and the writes are those of the turn of c6xxvf. -/
theorem scan_unreadable_driver_witness :
    (pluginFor "igb_uio" ["c6xxvf", "c3xxxvf"] 32).kernelVfDrivers ++
        [(pluginFor "igb_uio" ["c6xxvf", "c3xxxvf"] 32).dpdkDriver] =
        ["c6xxvf"] ++ "c3xxxvf" :: ["igb_uio"] ∧
      (∃ e, memFS.ReadDir sysfsOneVf
        (driverDir (pluginFor "igb_uio" ["c6xxvf", "c3xxxvf"] 32) "c3xxxvf") = .error e) ∧
      (∃ err, (scan (pluginFor "igb_uio" ["c6xxvf", "c3xxxvf"] 32) memFS sysfsOneVf).result =
        .error err) ∧
      notifyCalls (Scan (pluginFor "igb_uio" ["c6xxvf", "c3xxxvf"] 32) memFS 1
        sysfsOneVf).2.2 = [] :=
  have h := scan_unreadable_driver (pluginFor "igb_uio" ["c6xxvf", "c3xxxvf"] 32) memFS
    sysfsOneVf ["c6xxvf"] "c3xxxvf" ["igb_uio"] (by decide)
    ⟨"open /sys/bus/pci/drivers/c3xxxvf: no such file or directory", by decide⟩
    (fun s1 p data hs => by rw [memFS_ReadDir_write]; exact hs)
  ⟨by decide, ⟨"open /sys/bus/pci/drivers/c3xxxvf: no such file or directory", by decide⟩,
    h.1, by
    obtain ⟨err, he⟩ := h.2.1 0
    rw [he]
    exact h.2.2.1⟩

/-! The cap and the whole inventory -/

/-- C10 fails on the code: with max-num-devices 1, one device under the source
driver c6xxvf and another one under the DPDK driver igb_uio, the scan succeeds
and returns an inventory of two devices. -/
theorem scan_exceeds_max_devices :
    (pluginFor "igb_uio" ["c6xxvf"] 1).maxDevices = 1 ∧
      (scan (pluginFor "igb_uio" ["c6xxvf"] 1) memFS sysfsMixed).result = .ok inventoryMixed ∧
      inventoryMixed.size = 2 := by
  decide

end Theorems

end QatPlugin
